import Mathlib

set_option allowUnsafeReducibility true
set_option maxRecDepth 200000
attribute [semireducible] Rat.add Rat.mul Rat.sub Rat.inv Rat.ofScientific

/-!
Shallow embedding of the simulation core of Lunar Runner 47, a single-file
React/TypeScript space-trading game.  The mutable core consists of the React
state of the `App` component: a `GameState` record, the list of open contract
offers (`generatedContracts`) and a `gameOver` flag.  Commands are the event
handlers (`startTravel`, `handleAcceptContract`, `confirmRefuel`,
`handleRepair`, `handleWait`) and the per-frame tick is the composition of
`updateGameLoop` (time increment and docking penalty) with the effects keyed
on `gameState.gameTime`: the contract-maintenance effect, the flight effect,
and the spawn-on-arrival effect, in their declaration order.

Numeric values are modelled as exact rationals.  The only transcendental
computation in the core is `getDynamicLocations`/`getDistance`: the Euclidean
distance between two orbiting locations at a tick, computed with `cos`/`sin`.
All uses of coordinates in the core logic factor through that distance, so the
embedding is parameterised by a function `geo : ℕ → String → String → ℚ`
giving the distance between two locations (by id) at a tick; theorems that
need it assume `0 ≤ geo t a b`, which holds for every Euclidean distance.

Randomness (`Math.random()`) is modelled by explicitly injected draw values,
each constrained to the interval [0,1) where a theorem needs it.

Commands are modelled as their handlers' own state updates; the effects keyed
on `gameTime`/`isFlying` are modelled as phases of the tick.  The extra effect
runs React triggers right after a command's commit either no-op (the flight
and spawn effects after an arrival or game-over commit, the spawn effect
after `startTravel`) or perform work the model attributes to the following
tick instead (the first in-flight step after `startTravel`, and the single
maintenance run after `handleWait`'s time jump): the traversed states are the
same, offset by one frame.
-/

namespace LunarRunner

/-- Factions, from the `Faction` enum in types.ts. -/
inductive Faction where
  | X33 | X63 | X99 | NEUTRAL
deriving DecidableEq

/-- Location categories, from the `LocationType` enum in types.ts. -/
inductive LocationType where
  | STATION | MOON | PLANET
deriving DecidableEq

/-- Contract risk levels, the `'LOW' | 'MED' | 'HIGH'` union in types.ts. -/
inductive Risk where
  | LOW | MED | HIGH
deriving DecidableEq

/-- Static data of a location, from the `Location` interface in types.ts.
The `coords` field of the source is a runtime-derived value (recomputed every
tick by `getDynamicLocations`), so it is not part of the static record here;
distances between derived coordinates are abstracted by the `geo` parameter. -/
structure Location where
  id : String
  name : String
  ltype : LocationType
  faction : Faction
  fuelPrice : Option ℚ
  orbitRadius : Option ℚ
  orbitSpeed : Option ℚ
  initialAngle : Option ℚ
deriving DecidableEq

/-- A contract, from the `Contract` interface in types.ts.  The `id` of the
source is `cnt-${Date.now()}-${indexOffset}`; the wall clock and the random
offset are modelled by an injected string. -/
structure Contract where
  id : String
  title : String
  description : String
  destinationId : String
  pay : ℚ
  riskLevel : Risk
  faction : Faction
  expiresAt : ℕ
deriving DecidableEq

/-- Ship statistics, from the `ShipStats` interface in types.ts. -/
structure ShipStats where
  speed : ℚ
  fuelEfficiency : ℚ
  maxFuel : ℚ
  maxHull : ℚ
  cargoCapacity : ℚ
deriving DecidableEq

/-- The per-faction reputation record (`Record<Faction, number>` in the
source, with the four factions as keys). -/
structure Reputation where
  x33 : ℚ
  x63 : ℚ
  x99 : ℚ
  neutral : ℚ
deriving DecidableEq

/-- Read one faction's reputation (`reputation[faction]`). -/
def repGet (r : Reputation) : Faction → ℚ
  | .X33 => r.x33
  | .X63 => r.x63
  | .X99 => r.x99
  | .NEUTRAL => r.neutral

/-- Add to one faction's reputation (`newRep[faction] += amt`). -/
def repAdd (r : Reputation) (f : Faction) (amt : ℚ) : Reputation :=
  match f with
  | .X33 => { r with x33 := r.x33 + amt }
  | .X63 => { r with x63 := r.x63 + amt }
  | .X99 => { r with x99 := r.x99 + amt }
  | .NEUTRAL => { r with neutral := r.neutral + amt }

/-- The `GameState` interface from types.ts. -/
structure GameState where
  credits : ℚ
  fuel : ℚ
  hull : ℚ
  currentLocationId : String
  reputation : Reputation
  ship : ShipStats
  day : ℕ
  gameTime : ℕ
  isFlying : Bool
  flightProgress : ℚ
  flightOriginId : Option String
  flightDestinationId : Option String
  activeContract : Option Contract
  logs : List String
deriving DecidableEq

/-- The complete mutable core: `gameState`, `generatedContracts` and the
`gameOver` flag of the `App` component. -/
structure World where
  gs : GameState
  pool : List Contract
  gameOver : Bool
deriving DecidableEq

/-- `INITIAL_SHIP_STATS` from constants.ts. -/
def INITIAL_SHIP_STATS : ShipStats :=
  { speed := 1.5, fuelEfficiency := 1, maxFuel := 500, maxHull := 100,
    cargoCapacity := 10 }

/-- The `LOCATIONS` table from constants.ts (static fields only; derived
coordinates are abstracted by `geo`). -/
def LOCATIONS : List Location :=
  [ { id := "station-x33", name := "X-33 Liberty", ltype := .STATION,
      faction := .X33, fuelPrice := some 1.2, orbitRadius := some 100,
      orbitSpeed := some 0.2, initialAngle := some 0 },
    { id := "station-x63", name := "X-63 Bazaar", ltype := .STATION,
      faction := .X63, fuelPrice := some 0.9, orbitRadius := some 130,
      orbitSpeed := some 0.15, initialAngle := some 120 },
    { id := "station-x99", name := "X-99 Fringe", ltype := .STATION,
      faction := .X99, fuelPrice := some 0.6, orbitRadius := some 115,
      orbitSpeed := some 0.18, initialAngle := some 240 },
    { id := "moon-liberty1", name := "New Kansas", ltype := .MOON,
      faction := .X33, fuelPrice := none, orbitRadius := some 220,
      orbitSpeed := some 0.08, initialAngle := some 45 },
    { id := "moon-atlas7", name := "Atlas-7", ltype := .MOON,
      faction := .X63, fuelPrice := none, orbitRadius := some 260,
      orbitSpeed := some 0.06, initialAngle := some 180 },
    { id := "moon-bloodrust", name := "Blood Rust", ltype := .MOON,
      faction := .X99, fuelPrice := none, orbitRadius := some 290,
      orbitSpeed := some 0.05, initialAngle := some 300 },
    { id := "moon-cryo9", name := "Cryo-9", ltype := .MOON,
      faction := .X33, fuelPrice := none, orbitRadius := some 240,
      orbitSpeed := some 0.07, initialAngle := some 90 },
    { id := "moon-glimmer", name := "Glimmer", ltype := .MOON,
      faction := .NEUTRAL, fuelPrice := none, orbitRadius := some 310,
      orbitSpeed := some 0.04, initialAngle := some 0 } ]

/-- One entry of `CONTRACT_TEMPLATES` from constants.ts.  The `risk: 'HIGH'`
field present on the "Unmarked Crates" entry of the source is never read by
any code, so it is not modelled. -/
structure ContractTemplate where
  title : String
  basePay : ℚ
  desc : String
deriving DecidableEq

/-- `CONTRACT_TEMPLATES` from constants.ts. -/
def CONTRACT_TEMPLATES : List ContractTemplate :=
  [ { title := "Diplomatic Envoy", basePay := 400, desc := "Transport VIPs silently." },
    { title := "Mining Equipment", basePay := 250, desc := "Heavy machinery, watch fuel." },
    { title := "Perishable Food", basePay := 300, desc := "Rush delivery required." },
    { title := "Unmarked Crates", basePay := 600, desc := "Don't ask questions." },
    { title := "Refugee Transport", basePay := 150, desc := "Low pay, moral boost." },
    { title := "Spare Parts", basePay := 200, desc := "Routine maintenance run." } ]

/-- `LOG_MAX_LENGTH` from the App component. -/
def LOG_MAX_LENGTH : ℕ := 5

/-- `addLog`: prepend a message and truncate to the log capacity
(`[msg, ...prev.logs].slice(0, LOG_MAX_LENGTH)`). -/
def addLogList (msg : String) (logs : List String) : List String :=
  (msg :: logs).take LOG_MAX_LENGTH

/-- `Math.floor(draw * n)` for a draw in [0,1): the uniform index selection
used throughout the generator. -/
def natFloor (draw : ℚ) (n : ℕ) : ℕ :=
  (draw * n).floor.toNat

/-- A draw of `Math.random()`: a rational in [0,1). -/
def Draw01 (q : ℚ) : Prop := 0 ≤ q ∧ q < 1

instance : DecidablePred Draw01 := fun _ => instDecidableAnd

/-- The random draws consumed by one call of `generateNewContract`, plus the
generated contract id (`cnt-${Date.now()}-${indexOffset}` in the source,
opaque to the core logic). -/
structure GenDraws where
  templateDraw : ℚ
  destDraw : ℚ
  riskDraw1 : ℚ
  riskDraw2 : ℚ
  durationDraw : ℚ
  idStr : String
deriving DecidableEq

/-- All draws of a `GenDraws` lie in [0,1). -/
def ValidGen (g : GenDraws) : Prop :=
  Draw01 g.templateDraw ∧ Draw01 g.destDraw ∧ Draw01 g.riskDraw1 ∧
    Draw01 g.riskDraw2 ∧ Draw01 g.durationDraw

instance : DecidablePred ValidGen := fun _ => instDecidableAnd

/-- A fallback template value; never reached for draws in [0,1) since the
template table is non-empty. -/
def defaultTemplate : ContractTemplate := { title := "", basePay := 0, desc := "" }

/-- A fallback location value; never reached for draws in [0,1). -/
def defaultLocation : Location :=
  { id := "", name := "", ltype := .STATION, faction := .NEUTRAL,
    fuelPrice := none, orbitRadius := none, orbitSpeed := none,
    initialAngle := none }

/-- `generateNewContract(stationId, currentTime, indexOffset)` from the App
component.  Returns `none` exactly when the station id is unknown.  The two
risk draws model the two separate `Math.random()` calls of
`Math.random() > 0.7 ? 'HIGH' : (Math.random() > 0.4 ? 'MED' : 'LOW')`. -/
def generateNewContract (stationId : String) (currentTime : ℕ) (g : GenDraws) :
    Option Contract :=
  match LOCATIONS.find? (fun l => l.id == stationId) with
  | none => none
  | some station =>
    let template := CONTRACT_TEMPLATES.getD
      (natFloor g.templateDraw CONTRACT_TEMPLATES.length) defaultTemplate
    let destinations := LOCATIONS.filter (fun l => l.id != stationId)
    let dest := destinations.getD (natFloor g.destDraw destinations.length)
      defaultLocation
    let risk : Risk :=
      if (0.7 : ℚ) < g.riskDraw1 then .HIGH
      else if (0.4 : ℚ) < g.riskDraw2 then .MED
      else .LOW
    let riskPay : ℚ := match risk with | .HIGH => 200 | .MED => 80 | .LOW => 0
    let duration := 1500 + natFloor g.durationDraw 3000
    some { id := g.idStr, title := template.title, description := template.desc,
           destinationId := dest.id,
           pay := ((template.basePay + riskPay).floor : ℤ),
           riskLevel := risk, faction := station.faction,
           expiresAt := currentTime + duration }

/-- The random draws consumed by one run of the contract-maintenance effect. -/
structure MaintDraws where
  snatchDraw : ℚ
  snatchIdxDraw : ℚ
  replenishDraw : ℚ
  gen : GenDraws
  forceDraw : ℚ
  forceGen : GenDraws
deriving DecidableEq

/-- All draws of a `MaintDraws` lie in [0,1). -/
def ValidMaint (d : MaintDraws) : Prop :=
  Draw01 d.snatchDraw ∧ Draw01 d.snatchIdxDraw ∧ Draw01 d.replenishDraw ∧
    ValidGen d.gen ∧ Draw01 d.forceDraw ∧ ValidGen d.forceGen

instance : DecidablePred ValidMaint := fun _ => instDecidableAnd

/-- The contract generation and lifecycle effect of the App component (the
`useEffect` keyed on `gameState.gameTime`): expiry filter, rival snatch,
replenishment, and the empty-pool recovery spawn.  The filtered pool is
committed only when its length differs from the current pool's
(`if (active.length !== generatedContracts.length)` in the source); the
snatch log is emitted only on commit. -/
def contractMaintenance (pool : List Contract) (gs : GameState) (d : MaintDraws) :
    List Contract × GameState :=
  let now := gs.gameTime
  let currentLocOpt := LOCATIONS.find? (fun l => l.id == gs.currentLocationId)
  if 0 < pool.length then
    let active := pool.filter (fun c => decide (now < c.expiresAt))
    let snatched := d.snatchDraw < (0.0005 : ℚ) ∧ 0 < active.length
    let active2 :=
      if snatched then active.eraseIdx (natFloor d.snatchIdxDraw active.length)
      else active
    let active3 :=
      if active2.length < 3 ∧ currentLocOpt.isSome then
        if d.replenishDraw < (0.005 : ℚ) then
          match currentLocOpt with
          | some loc =>
            match generateNewContract loc.id now d.gen with
            | some c => active2 ++ [c]
            | none => active2
          | none => active2
        else active2
      else active2
    if active3.length ≠ pool.length then
      (active3,
        if snatched then
          { gs with logs := addLogList "ALERT: CONTRACT TAKEN BY RIVAL RUNNER." gs.logs }
        else gs)
    else (pool, gs)
  else
    if currentLocOpt.isSome ∧ gs.isFlying = false then
      if d.forceDraw < (0.01 : ℚ) then
        match currentLocOpt with
        | some loc =>
          match generateNewContract loc.id gs.gameTime d.forceGen with
          | some c => ([c], gs)
          | none => (pool, gs)
        | none => (pool, gs)
      else (pool, gs)
    else (pool, gs)

/-- `spawnContractsForLocation(stationId, currentTime)`: replace the offer
pool with up to three freshly generated contracts (all three succeed whenever
the station id is known; the pool becomes empty when it is unknown). -/
def spawnContractsForLocation (stationId : String) (currentTime : ℕ)
    (g0 g1 g2 : GenDraws) : List Contract :=
  match LOCATIONS.find? (fun l => l.id == stationId) with
  | none => []
  | some _ =>
    [g0, g1, g2].filterMap (fun g => generateNewContract stationId currentTime g)

/-- One step of `updateGameLoop`: the docking-overtime penalty followed by the
`gameTime` increment.  The penalty fires when a contract is active, the ship
is not flying, the current location id is truthy, and the pre-increment time
is a multiple of 60; the alert log additionally needs a multiple of 300. -/
def updateGameLoopStep (gs : GameState) : GameState :=
  let penalize := gs.activeContract.isSome ∧ gs.isFlying = false ∧
    gs.currentLocationId ≠ "" ∧ gs.gameTime % 60 = 0
  { gs with
    credits := if penalize then max 0 (gs.credits - 1) else gs.credits
    logs := if penalize ∧ gs.gameTime % 300 = 0 then
        addLogList "ALERT: DOCKING OVERTIME PENALTY -1CR" gs.logs
      else gs.logs
    gameTime := gs.gameTime + 1 }

/-- The flight effect of the App component (the `useEffect` keyed on
`gameState.isFlying` and `gameState.gameTime`).  Returns the next state and
whether `setGameOver(true)` was called.  The game-over check (`fuel <= 0 ||
hull <= 0`) precedes the arrival check (`flightProgress >= 1`); the in-flight
branch advances progress by `1/120`, burns
`instantDist * fuelEfficiency * 0.5 / 120` fuel with no lower clamp, and
applies 5 hull damage when the hazard draw is below 0.005, also unclamped.
The game-over branch prepends its log without the capacity slice, exactly as
the source does. -/
def flightStep (geo : ℕ → String → String → ℚ) (hazardDraw : ℚ)
    (gs : GameState) : GameState × Bool :=
  if gs.isFlying = true then
    match gs.flightDestinationId, gs.flightOriginId with
    | some destId, some originId =>
      match LOCATIONS.find? (fun l => l.id == destId),
            LOCATIONS.find? (fun l => l.id == originId) with
      | some dest, some _origin =>
        let progressIncrement : ℚ := 1 / 120
        let instantDist := geo gs.gameTime originId destId
        let fuelBurn := instantDist * gs.ship.fuelEfficiency * (1/2) * progressIncrement
        if gs.fuel ≤ 0 ∨ gs.hull ≤ 0 then
          ({ gs with isFlying := false, logs := "CRITICAL FAILURE." :: gs.logs }, true)
        else if 1 ≤ gs.flightProgress then
          let arrivalId := destId
          let destName := dest.name
          match gs.activeContract with
          | some c =>
            if c.destinationId == arrivalId then
              ({ gs with
                  isFlying := false
                  flightProgress := 0
                  currentLocationId := arrivalId
                  flightOriginId := none
                  flightDestinationId := none
                  activeContract := none
                  credits := gs.credits + c.pay
                  reputation :=
                    if c.faction ≠ Faction.NEUTRAL then repAdd gs.reputation c.faction 5
                    else gs.reputation
                  logs := addLogList ("JOB DONE. +" ++ toString c.pay ++ " CR.") gs.logs },
               false)
            else
              ({ gs with
                  isFlying := false
                  flightProgress := 0
                  currentLocationId := arrivalId
                  flightOriginId := none
                  flightDestinationId := none
                  logs := addLogList ("ARRIVED AT " ++ destName ++ ".") gs.logs },
               false)
          | none =>
            ({ gs with
                isFlying := false
                flightProgress := 0
                currentLocationId := arrivalId
                flightOriginId := none
                flightDestinationId := none
                logs := addLogList ("ARRIVED AT " ++ destName ++ ".") gs.logs },
             false)
        else
          let damage : ℚ := if hazardDraw < (0.005 : ℚ) then 5 else 0
          ({ gs with
              flightProgress := gs.flightProgress + progressIncrement
              fuel := gs.fuel - fuelBurn
              hull := gs.hull - damage
              logs := if 0 < damage then addLogList "ALERT: HULL DAMAGE" gs.logs
                else gs.logs },
           false)
      | _, _ => (gs, false)
    | _, _ => (gs, false)
  else (gs, false)

/-- The random draws consumed by one full tick: maintenance draws, the flight
hazard draw, and the three generator draws of a potential arrival spawn. -/
structure TickOracle where
  maint : MaintDraws
  hazardDraw : ℚ
  spawn0 : GenDraws
  spawn1 : GenDraws
  spawn2 : GenDraws
deriving DecidableEq

/-- All draws of a `TickOracle` lie in [0,1). -/
def ValidOracle (o : TickOracle) : Prop :=
  ValidMaint o.maint ∧ Draw01 o.hazardDraw ∧ ValidGen o.spawn0 ∧
    ValidGen o.spawn1 ∧ ValidGen o.spawn2

instance : DecidablePred ValidOracle := fun _ => instDecidableAnd

/-- One full tick of the core: `updateGameLoop` increments `gameTime`, then
the effects keyed on the new `gameTime` run in declaration order — contract
maintenance, then the flight effect; the spawn-on-arrival effect (keyed on
`currentLocationId` and `isFlying`) runs when the flight effect ended a
flight (arrival or game over) and the location id is truthy. -/
def tickWorld (geo : ℕ → String → String → ℚ) (o : TickOracle) (w : World) : World :=
  let gs1 := updateGameLoopStep w.gs
  let mres := contractMaintenance w.pool gs1 o.maint
  let gs2 := mres.2
  let fres := flightStep geo o.hazardDraw gs2
  let gs3 := fres.1
  let endedFlight := gs2.isFlying = true ∧ gs3.isFlying = false
  let pool2 :=
    if endedFlight ∧ gs3.currentLocationId ≠ "" then
      spawnContractsForLocation gs3.currentLocationId gs3.gameTime
        o.spawn0 o.spawn1 o.spawn2
    else mres.1
  { gs := gs3, pool := pool2, gameOver := w.gameOver || fres.2 }

/-- The collaborator-visible signals (audio cues) a command emits; the log
entries it emits are visible in `GameState.logs` directly. -/
inductive Signal where
  | errorSound | acceptSound | cashSound | clickSound | engineStart | alertSound
deriving DecidableEq

/-- `startTravel(targetId)`: guarded by `fuel >= fuelCost(distance)`; on
rejection it appends an error log (via `addLog`) and plays the error sound;
on success it logs, starts the engine sound, records origin and destination,
sets `isFlying` and resets `flightProgress` to 0.  When either location id is
unknown it returns silently after the click sound. -/
def startTravel (geo : ℕ → String → String → ℚ) (targetId : String) (w : World) :
    World × List Signal :=
  let gs := w.gs
  match LOCATIONS.find? (fun l => l.id == gs.currentLocationId),
        LOCATIONS.find? (fun l => l.id == targetId) with
  | some origin, some dest =>
    let dist := geo gs.gameTime origin.id dest.id
    let fuelNeeded := dist * gs.ship.fuelEfficiency * (1/2)
    if gs.fuel < fuelNeeded then
      ({ w with gs := { gs with
           logs := addLogList "ERROR: INSUFFICIENT FUEL FOR TRAJECTORY." gs.logs } },
       [.clickSound, .errorSound])
    else
      ({ w with gs := { gs with
           logs := addLogList ("TRAJECTORY LOCKED: " ++ dest.name ++ "...") gs.logs
           isFlying := true
           flightOriginId := some origin.id
           flightDestinationId := some dest.id
           flightProgress := 0 } },
       [.clickSound, .engineStart])
  | _, _ => (w, [.clickSound])

/-- `handleAcceptContract(c)`: rejected with an error log and sound when an
active contract exists; otherwise the contract becomes the active contract
and every offer with its id is filtered out of the pool. -/
def handleAcceptContract (c : Contract) (w : World) : World × List Signal :=
  if w.gs.activeContract.isSome then
    ({ w with gs := { w.gs with
         logs := addLogList "ERROR: ACTIVE CONTRACT IN PROGRESS." w.gs.logs } },
     [.errorSound])
  else
    ({ w with
        gs := { w.gs with
          activeContract := some c
          logs := addLogList ("ACCEPTED: " ++ c.title) w.gs.logs }
        pool := w.pool.filter (fun con => con.id != c.id) },
     [.acceptSound])

/-- `confirmRefuel` with the slider value `amt`.  The source rejects silently
(plain `return`, no log, no sound) when the location sells no fuel, when the
price is zero, or when `fuelToAdd <= 0`; it also no-ops silently when the
credits do not cover `Math.floor(amt * price)`.  On success fuel clamps at
`maxFuel`, credits drop by the cost and a log is emitted.  (The source
formats the amount with `toFixed(0)`; the log here prints the exact
rational, which no theorem inspects.) -/
def confirmRefuel (amt : ℚ) (w : World) : World × List Signal :=
  let gs := w.gs
  match LOCATIONS.find? (fun l => l.id == gs.currentLocationId) with
  | none => (w, [])
  | some loc =>
    match loc.fuelPrice with
    | none => (w, [])
    | some price =>
      if price = 0 ∨ amt ≤ 0 then (w, [])
      else
        let cost : ℚ := ((amt * price).floor : ℤ)
        if cost ≤ gs.credits then
          ({ w with gs := { gs with
               fuel := min gs.ship.maxFuel (gs.fuel + amt)
               credits := gs.credits - cost
               logs := addLogList
                 ("REFUELED " ++ toString amt ++ "L. -" ++ toString cost ++ " CR")
                 gs.logs } },
           [.cashSound])
        else (w, [])

/-- `handleRepair`: silent no-op at full hull; with enough credits repairs to
`maxHull` at 2 credits per hit point; otherwise logs "INSUFFICIENT FUNDS."
and plays the error sound. -/
def handleRepair (w : World) : World × List Signal :=
  let gs := w.gs
  let hpNeeded := gs.ship.maxHull - gs.hull
  let cost := hpNeeded * 2
  if hpNeeded ≤ 0 then (w, [])
  else if cost ≤ gs.credits then
    ({ w with gs := { gs with
         hull := gs.ship.maxHull
         credits := gs.credits - cost
         logs := addLogList "HULL REPAIRED." gs.logs } },
     [.cashSound])
  else
    ({ w with gs := { gs with logs := addLogList "INSUFFICIENT FUNDS." gs.logs } },
     [.errorSound])

/-- `handleWait`: fast-forward `gameTime` by 500 ticks in one shot. -/
def handleWait (w : World) : World × List Signal :=
  ({ w with gs := { w.gs with
       gameTime := w.gs.gameTime + 500
       logs := addLogList "WAITING FOR ALIGNMENT..." w.gs.logs } },
   [.clickSound])

/-- The initial `gameState` of the App component. -/
def initialGameState : GameState :=
  { credits := 150, fuel := 400, hull := 100,
    currentLocationId := "station-x33",
    reputation := { x33 := 50, x63 := 40, x99 := 20, neutral := 0 },
    ship := INITIAL_SHIP_STATS, day := 1, gameTime := 0,
    isFlying := false, flightProgress := 0,
    flightOriginId := none, flightDestinationId := none,
    activeContract := none,
    logs := ["SYSTEM INIT...", "DOCKED AT X-33 LIBERTY."] }

/-- The world right after mount: the spawn effect runs once on mount and
replaces the (empty) pool with three contracts for the starting station. -/
def initialWorld (g0 g1 g2 : GenDraws) : World :=
  { gs := initialGameState,
    pool := spawnContractsForLocation "station-x33" 0 g0 g1 g2,
    gameOver := false }

/-- A user- or scheduler-issued operation on the core. -/
inductive Op where
  | tick (o : TickOracle)
  | travel (targetId : String)
  | accept (c : Contract)
  | refuel (amt : ℚ)
  | repair
  | wait

/-- Apply one operation, returning the new world and the emitted signals
(ticks emit only logs, which live in the state). -/
def applyOp (geo : ℕ → String → String → ℚ) : Op → World → World × List Signal
  | .tick o, w => (tickWorld geo o w, [])
  | .travel t, w => startTravel geo t w
  | .accept c, w => handleAcceptContract c w
  | .refuel a, w => confirmRefuel a w
  | .repair, w => handleRepair w
  | .wait, w => handleWait w

/-- The worlds reachable in the application.  Ticks run unconditionally (the
animation-frame loop is never stopped, even after game over); commands are
only reachable through the UI, which is replaced wholesale by the game-over
screen when `gameOver` is set and offers the command buttons only while
docked, so command steps require `gameOver = false` and `isFlying = false`;
acceptance requires the contract to be one of the displayed offers. -/
inductive Reachable (geo : ℕ → String → String → ℚ) : World → Prop where
  | init (g0 g1 g2 : GenDraws) : Reachable geo (initialWorld g0 g1 g2)
  | tick {w : World} (o : TickOracle) (ho : ValidOracle o)
      (hw : Reachable geo w) : Reachable geo (tickWorld geo o w)
  | travel {w : World} (tid : String) (hg : w.gameOver = false)
      (hf : w.gs.isFlying = false) (hw : Reachable geo w) :
      Reachable geo (startTravel geo tid w).1
  | accept {w : World} (c : Contract) (hg : w.gameOver = false)
      (hf : w.gs.isFlying = false) (hc : c ∈ w.pool) (hw : Reachable geo w) :
      Reachable geo (handleAcceptContract c w).1
  | refuel {w : World} (amt : ℚ) (hg : w.gameOver = false)
      (hf : w.gs.isFlying = false) (hw : Reachable geo w) :
      Reachable geo (confirmRefuel amt w).1
  | repair {w : World} (hg : w.gameOver = false) (hf : w.gs.isFlying = false)
      (hw : Reachable geo w) : Reachable geo (handleRepair w).1
  | wait {w : World} (hg : w.gameOver = false) (hf : w.gs.isFlying = false)
      (hw : Reachable geo w) : Reachable geo (handleWait w).1

/-- Lower and upper resource bounds, `0 <= fuel <= maxFuel` and
`0 <= hull <= maxHull`. -/
def Bounds (gs : GameState) : Prop :=
  0 ≤ gs.fuel ∧ gs.fuel ≤ gs.ship.maxFuel ∧ 0 ≤ gs.hull ∧ gs.hull ≤ gs.ship.maxHull

instance : DecidablePred Bounds := fun _ => instDecidableAnd

/-- The upper halves of the resource bounds. -/
def UpperBounds (gs : GameState) : Prop :=
  gs.fuel ≤ gs.ship.maxFuel ∧ gs.hull ≤ gs.ship.maxHull

/-- The fuel a tick burns while flying: the instantaneous distance at the
post-increment time, times `fuelEfficiency * 0.5 * (1/120)`. -/
def tickFuelBurn (geo : ℕ → String → String → ℚ) (gs : GameState) : ℚ :=
  geo (gs.gameTime + 1) (gs.flightOriginId.getD "") (gs.flightDestinationId.getD "") *
    gs.ship.fuelEfficiency * (1/2) * (1/120)

/-! ### Concrete sample data used by witnesses and counterexamples -/

/-- A concrete valid generator draw bundle (all draws 0). -/
def gC : GenDraws :=
  { templateDraw := 0, destDraw := 0, riskDraw1 := 0, riskDraw2 := 0,
    durationDraw := 0, idStr := "cnt-1700000000000-0" }

/-- Concrete valid maintenance draws: no snatch, no replenish, no force spawn. -/
def mC : MaintDraws :=
  { snatchDraw := 1/2, snatchIdxDraw := 0, replenishDraw := 1/2, gen := gC,
    forceDraw := 1/2, forceGen := gC }

/-- A concrete valid tick oracle: hazard draw 0, so the 5-damage hazard fires
on every in-flight tick. -/
def oC : TickOracle :=
  { maint := mC, hazardDraw := 0, spawn0 := gC, spawn1 := gC, spawn2 := gC }

/-- A concrete geometry: every pair of locations is 240 apart at every tick,
so a flight costs 120 fuel in total and burns exactly 1 fuel per tick. -/
def geoC : ℕ → String → String → ℚ := fun _ _ _ => 240

/-- A concrete geometry with distance 1000: the corresponding fuel cost of
500 exceeds the initial 400 fuel. -/
def geoBig : ℕ → String → String → ℚ := fun _ _ _ => 1000

/-- The post-mount initial world built from the concrete draws. -/
def w0 : World := initialWorld gC gC gC

/-- The world right after `startTravel("moon-glimmer")` from the initial
world under `geoC`. -/
def w1 : World := (startTravel geoC "moon-glimmer" w0).1

/-- The world after 21 further ticks of `w1` under `geoC` and `oC`: the
hazard fires every tick, hull reaches 0 after 20 in-flight ticks, and the
21st tick takes the game-over branch mid-flight. -/
def wCrash : World := Nat.iterate (tickWorld geoC oC) 21 w1

/-- An in-flight state with bounded resources but less fuel (1/2) than one
tick's burn under `geoC` (1): used to exhibit the missing lower clamp. -/
def wLowFuel : World :=
  { gs := { initialGameState with
      isFlying := true
      flightOriginId := some "station-x33"
      flightDestinationId := some "moon-glimmer"
      fuel := 1/2
      flightProgress := 10/120 }
    pool := []
    gameOver := false }

/-- A delivery contract to Glimmer used by the arrival-settlement witness. -/
def cDeliver : Contract :=
  { id := "cnt-1700000000001-0", title := "Perishable Food",
    description := "Rush delivery required.", destinationId := "moon-glimmer",
    pay := 380, riskLevel := .MED, faction := .X33, expiresAt := 100000 }

/-- An in-flight state one tick from arrival at Glimmer carrying
`cDeliver`. -/
def wArrive : World :=
  { gs := { initialGameState with
      isFlying := true
      flightOriginId := some "station-x33"
      flightDestinationId := some "moon-glimmer"
      fuel := 300
      flightProgress := 1
      activeContract := some cDeliver }
    pool := []
    gameOver := false }

/-- An already expired offer (`expiresAt = 5`). -/
def cExpired : Contract :=
  { id := "cnt-1600000000000-0", title := "Spare Parts",
    description := "Routine maintenance run.", destinationId := "moon-atlas7",
    pay := 200, riskLevel := .LOW, faction := .X33, expiresAt := 5 }

/-- A docked world at tick 10 whose offer pool holds only the expired
offer `cExpired`. -/
def wStale : World :=
  { gs := { initialGameState with gameTime := 10 }
    pool := [cExpired]
    gameOver := false }

/-- A tick oracle whose replenishment draw fires (draw 0 < 0.005), all draws
valid. -/
def oSpawn : TickOracle :=
  { maint := { mC with replenishDraw := 0 }, hazardDraw := 1/2, spawn0 := gC,
    spawn1 := gC, spawn2 := gC }

/-- The fuel a single flight-effect run burns, at the state it runs on:
`instantDist * fuelEfficiency * 0.5 * (1/120)`. -/
def stepBurn (geo : ℕ → String → String → ℚ) (gs : GameState) : ℚ :=
  geo gs.gameTime (gs.flightOriginId.getD "") (gs.flightDestinationId.getD "") *
    gs.ship.fuelEfficiency * (1/2) * (1/120)

/-- The flight-field invariant: while flying, origin and destination are set
and progress is a multiple of 1/120 in [0,1]; while not flying and not game
over, the flight fields are cleared; after game over the ship is not
flying. -/
def FlightInv (w : World) : Prop :=
  (w.gs.isFlying = true →
    w.gs.flightOriginId ≠ none ∧ w.gs.flightDestinationId ≠ none ∧
      ∃ k : ℕ, k ≤ 120 ∧ w.gs.flightProgress = (k : ℚ) / 120) ∧
  (w.gameOver = false → w.gs.isFlying = false →
    w.gs.flightOriginId = none ∧ w.gs.flightDestinationId = none ∧
      w.gs.flightProgress = 0) ∧
  (w.gameOver = true → w.gs.isFlying = false)

/-- The "station-x33" row of `LOCATIONS`. -/
def lX33 : Location :=
  { id := "station-x33", name := "X-33 Liberty", ltype := .STATION,
    faction := .X33, fuelPrice := some 1.2, orbitRadius := some 100,
    orbitSpeed := some 0.2, initialAngle := some 0 }

/-- The "moon-glimmer" row of `LOCATIONS`. -/
def lGlimmer : Location :=
  { id := "moon-glimmer", name := "Glimmer", ltype := .MOON,
    faction := .NEUTRAL, fuelPrice := none, orbitRadius := some 310,
    orbitSpeed := some 0.04, initialAngle := some 0 }

/-- The initial world with an already accepted contract. -/
def wActive : World :=
  { w0 with gs := { w0.gs with activeContract := some cDeliver } }

/-- The initial world with fuel lowered to 1: far below the 120-fuel cost of
any `geoC` route. -/
def wPoor : World :=
  { w0 with gs := { w0.gs with fuel := 1 } }

/-- Generator draws whose first risk draw is 0.5 and second is 0.9. -/
def gMedWit : GenDraws :=
  { templateDraw := 2/5, destDraw := 0, riskDraw1 := 1/2, riskDraw2 := 9/10,
    durationDraw := 0, idStr := "cnt-1700000000002-0" }

/-- The contract `generateNewContract "station-x33" 0 gMedWit` produces. -/
def cMedWit : Contract :=
  { id := "cnt-1700000000002-0", title := "Perishable Food",
    description := "Rush delivery required.", destinationId := "station-x63",
    pay := 380, riskLevel := .MED, faction := .X33, expiresAt := 1500 }

/-! ### Basic lemmas about the step functions -/

theorem ugl_fuel (gs : GameState) : (updateGameLoopStep gs).fuel = gs.fuel := rfl

theorem ugl_hull (gs : GameState) : (updateGameLoopStep gs).hull = gs.hull := rfl

theorem ugl_ship (gs : GameState) : (updateGameLoopStep gs).ship = gs.ship := rfl

theorem ugl_isFlying (gs : GameState) :
    (updateGameLoopStep gs).isFlying = gs.isFlying := rfl

theorem ugl_progress (gs : GameState) :
    (updateGameLoopStep gs).flightProgress = gs.flightProgress := rfl

theorem ugl_origin (gs : GameState) :
    (updateGameLoopStep gs).flightOriginId = gs.flightOriginId := rfl

theorem ugl_dest (gs : GameState) :
    (updateGameLoopStep gs).flightDestinationId = gs.flightDestinationId := rfl

theorem ugl_active (gs : GameState) :
    (updateGameLoopStep gs).activeContract = gs.activeContract := rfl

theorem ugl_loc (gs : GameState) :
    (updateGameLoopStep gs).currentLocationId = gs.currentLocationId := rfl

theorem ugl_rep (gs : GameState) :
    (updateGameLoopStep gs).reputation = gs.reputation := rfl

theorem ugl_time (gs : GameState) :
    (updateGameLoopStep gs).gameTime = gs.gameTime + 1 := rfl

theorem ugl_credits_flying (gs : GameState) (h : gs.isFlying = true) :
    (updateGameLoopStep gs).credits = gs.credits := by
  unfold updateGameLoopStep
  simp [h]

/-- The maintenance effect changes at most the log buffer of the game
state. -/
theorem maint_gs_cases (p : List Contract) (gs : GameState) (d : MaintDraws) :
    (contractMaintenance p gs d).2 = gs ∨
    (contractMaintenance p gs d).2 =
      { gs with logs := addLogList "ALERT: CONTRACT TAKEN BY RIVAL RUNNER." gs.logs } := by
  unfold contractMaintenance
  dsimp only
  repeat' split
  all_goals first | (left; rfl) | (right; rfl)

theorem maint_fuel (p : List Contract) (gs : GameState) (d : MaintDraws) :
    (contractMaintenance p gs d).2.fuel = gs.fuel := by
  rcases maint_gs_cases p gs d with h | h <;> rw [h]

theorem maint_hull (p : List Contract) (gs : GameState) (d : MaintDraws) :
    (contractMaintenance p gs d).2.hull = gs.hull := by
  rcases maint_gs_cases p gs d with h | h <;> rw [h]

theorem maint_ship (p : List Contract) (gs : GameState) (d : MaintDraws) :
    (contractMaintenance p gs d).2.ship = gs.ship := by
  rcases maint_gs_cases p gs d with h | h <;> rw [h]

theorem maint_isFlying (p : List Contract) (gs : GameState) (d : MaintDraws) :
    (contractMaintenance p gs d).2.isFlying = gs.isFlying := by
  rcases maint_gs_cases p gs d with h | h <;> rw [h]

theorem maint_progress (p : List Contract) (gs : GameState) (d : MaintDraws) :
    (contractMaintenance p gs d).2.flightProgress = gs.flightProgress := by
  rcases maint_gs_cases p gs d with h | h <;> rw [h]

theorem maint_origin (p : List Contract) (gs : GameState) (d : MaintDraws) :
    (contractMaintenance p gs d).2.flightOriginId = gs.flightOriginId := by
  rcases maint_gs_cases p gs d with h | h <;> rw [h]

theorem maint_dest (p : List Contract) (gs : GameState) (d : MaintDraws) :
    (contractMaintenance p gs d).2.flightDestinationId = gs.flightDestinationId := by
  rcases maint_gs_cases p gs d with h | h <;> rw [h]

theorem maint_active (p : List Contract) (gs : GameState) (d : MaintDraws) :
    (contractMaintenance p gs d).2.activeContract = gs.activeContract := by
  rcases maint_gs_cases p gs d with h | h <;> rw [h]

theorem maint_loc (p : List Contract) (gs : GameState) (d : MaintDraws) :
    (contractMaintenance p gs d).2.currentLocationId = gs.currentLocationId := by
  rcases maint_gs_cases p gs d with h | h <;> rw [h]

theorem maint_rep (p : List Contract) (gs : GameState) (d : MaintDraws) :
    (contractMaintenance p gs d).2.reputation = gs.reputation := by
  rcases maint_gs_cases p gs d with h | h <;> rw [h]

theorem maint_credits (p : List Contract) (gs : GameState) (d : MaintDraws) :
    (contractMaintenance p gs d).2.credits = gs.credits := by
  rcases maint_gs_cases p gs d with h | h <;> rw [h]

theorem maint_time (p : List Contract) (gs : GameState) (d : MaintDraws) :
    (contractMaintenance p gs d).2.gameTime = gs.gameTime := by
  rcases maint_gs_cases p gs d with h | h <;> rw [h]

theorem flightStep_not_flying (geo : ℕ → String → String → ℚ) (d : ℚ)
    (gs : GameState) (h : gs.isFlying = false) : flightStep geo d gs = (gs, false) := by
  unfold flightStep
  simp [h]

theorem repGet_repAdd (r : Reputation) (f : Faction) (amt : ℚ) :
    repGet (repAdd r f amt) f = repGet r f + amt := by
  cases f <;> rfl

theorem flightStep_nodest (geo : ℕ → String → String → ℚ) (d : ℚ) (gs : GameState)
    (hd : gs.flightDestinationId = none) : flightStep geo d gs = (gs, false) := by
  unfold flightStep
  rw [hd]
  split <;> rfl

theorem flightStep_noorigin (geo : ℕ → String → String → ℚ) (d : ℚ) (gs : GameState)
    (b : String) (hd : gs.flightDestinationId = some b)
    (ho : gs.flightOriginId = none) : flightStep geo d gs = (gs, false) := by
  unfold flightStep
  rw [hd, ho]
  split <;> rfl

theorem flightStep_nofindd (geo : ℕ → String → String → ℚ) (d : ℚ) (gs : GameState)
    (b a : String) (hd : gs.flightDestinationId = some b)
    (ho : gs.flightOriginId = some a)
    (hfb : LOCATIONS.find? (fun l => l.id == b) = none) :
    flightStep geo d gs = (gs, false) := by
  unfold flightStep
  rw [hd, ho]
  split
  · dsimp only
    rw [hfb]
  · rfl

theorem flightStep_nofindo (geo : ℕ → String → String → ℚ) (d : ℚ) (gs : GameState)
    (b a : String) (lb : Location) (hd : gs.flightDestinationId = some b)
    (ho : gs.flightOriginId = some a)
    (hfb : LOCATIONS.find? (fun l => l.id == b) = some lb)
    (hfa : LOCATIONS.find? (fun l => l.id == a) = none) :
    flightStep geo d gs = (gs, false) := by
  unfold flightStep
  rw [hd, ho]
  split
  · dsimp only
    rw [hfb, hfa]
  · rfl

/-- Game-over branch of the flight effect: when fuel or hull is already at
or below 0, the flight stops but the flight fields are left as they are. -/
theorem flightStep_crit (geo : ℕ → String → String → ℚ) (d : ℚ) (gs : GameState)
    (b a : String) (lb la : Location)
    (hf : gs.isFlying = true) (hd : gs.flightDestinationId = some b)
    (ho : gs.flightOriginId = some a)
    (hfb : LOCATIONS.find? (fun l => l.id == b) = some lb)
    (hfa : LOCATIONS.find? (fun l => l.id == a) = some la)
    (hcrit : gs.fuel ≤ 0 ∨ gs.hull ≤ 0) :
    flightStep geo d gs =
      ({ gs with isFlying := false, logs := "CRITICAL FAILURE." :: gs.logs }, true) := by
  unfold flightStep
  rw [hf, hd, ho]
  dsimp only
  rw [hfb, hfa]
  dsimp only
  rw [if_pos hcrit]
  simp

/-- Arrival branch with a matching active contract: settlement pays the
contract. -/
theorem flightStep_arrival_paid (geo : ℕ → String → String → ℚ) (d : ℚ)
    (gs : GameState) (b a : String) (lb la : Location) (c : Contract)
    (hf : gs.isFlying = true) (hd : gs.flightDestinationId = some b)
    (ho : gs.flightOriginId = some a)
    (hfb : LOCATIONS.find? (fun l => l.id == b) = some lb)
    (hfa : LOCATIONS.find? (fun l => l.id == a) = some la)
    (hok : ¬ (gs.fuel ≤ 0 ∨ gs.hull ≤ 0)) (hprog : 1 ≤ gs.flightProgress)
    (hc : gs.activeContract = some c) (hcd : c.destinationId = b) :
    flightStep geo d gs =
      ({ gs with
          isFlying := false
          flightProgress := 0
          currentLocationId := b
          flightOriginId := none
          flightDestinationId := none
          activeContract := none
          credits := gs.credits + c.pay
          reputation :=
            if c.faction ≠ Faction.NEUTRAL then repAdd gs.reputation c.faction 5
            else gs.reputation
          logs := addLogList ("JOB DONE. +" ++ toString c.pay ++ " CR.") gs.logs },
       false) := by
  unfold flightStep
  rw [hf, hd, ho]
  dsimp only
  rw [hfb, hfa]
  dsimp only
  rw [if_neg hok, if_pos hprog, hc]
  dsimp only
  simp [beq_iff_eq, hcd]

/-- Arrival branch with a non-matching active contract: plain arrival. -/
theorem flightStep_arrival_other (geo : ℕ → String → String → ℚ) (d : ℚ)
    (gs : GameState) (b a : String) (lb la : Location) (c : Contract)
    (hf : gs.isFlying = true) (hd : gs.flightDestinationId = some b)
    (ho : gs.flightOriginId = some a)
    (hfb : LOCATIONS.find? (fun l => l.id == b) = some lb)
    (hfa : LOCATIONS.find? (fun l => l.id == a) = some la)
    (hok : ¬ (gs.fuel ≤ 0 ∨ gs.hull ≤ 0)) (hprog : 1 ≤ gs.flightProgress)
    (hc : gs.activeContract = some c) (hcd : ¬ c.destinationId = b) :
    flightStep geo d gs =
      ({ gs with
          isFlying := false
          flightProgress := 0
          currentLocationId := b
          flightOriginId := none
          flightDestinationId := none
          logs := addLogList ("ARRIVED AT " ++ lb.name ++ ".") gs.logs },
       false) := by
  unfold flightStep
  rw [hf, hd, ho]
  dsimp only
  rw [hfb, hfa]
  dsimp only
  rw [if_neg hok, if_pos hprog, hc]
  dsimp only
  simp [beq_iff_eq, hcd]

/-- Arrival branch without an active contract: plain arrival. -/
theorem flightStep_arrival_none (geo : ℕ → String → String → ℚ) (d : ℚ)
    (gs : GameState) (b a : String) (lb la : Location)
    (hf : gs.isFlying = true) (hd : gs.flightDestinationId = some b)
    (ho : gs.flightOriginId = some a)
    (hfb : LOCATIONS.find? (fun l => l.id == b) = some lb)
    (hfa : LOCATIONS.find? (fun l => l.id == a) = some la)
    (hok : ¬ (gs.fuel ≤ 0 ∨ gs.hull ≤ 0)) (hprog : 1 ≤ gs.flightProgress)
    (hc : gs.activeContract = none) :
    flightStep geo d gs =
      ({ gs with
          isFlying := false
          flightProgress := 0
          currentLocationId := b
          flightOriginId := none
          flightDestinationId := none
          logs := addLogList ("ARRIVED AT " ++ lb.name ++ ".") gs.logs },
       false) := by
  unfold flightStep
  rw [hf, hd, ho]
  dsimp only
  rw [hfb, hfa]
  dsimp only
  rw [if_neg hok, if_pos hprog, hc]
  simp

/-- In-flight branch: progress advances by 1/120, fuel drops by the burn,
hull by the hazard damage. -/
theorem flightStep_inflight (geo : ℕ → String → String → ℚ) (d : ℚ)
    (gs : GameState) (b a : String) (lb la : Location)
    (hf : gs.isFlying = true) (hd : gs.flightDestinationId = some b)
    (ho : gs.flightOriginId = some a)
    (hfb : LOCATIONS.find? (fun l => l.id == b) = some lb)
    (hfa : LOCATIONS.find? (fun l => l.id == a) = some la)
    (hok : ¬ (gs.fuel ≤ 0 ∨ gs.hull ≤ 0)) (hprog : ¬ 1 ≤ gs.flightProgress) :
    flightStep geo d gs =
      ({ gs with
          flightProgress := gs.flightProgress + 1 / 120
          fuel := gs.fuel -
            geo gs.gameTime a b * gs.ship.fuelEfficiency * (1/2) * (1/120)
          hull := gs.hull - (if d < (0.005 : ℚ) then 5 else 0)
          logs := if (0 : ℚ) < (if d < (0.005 : ℚ) then 5 else 0) then
              addLogList "ALERT: HULL DAMAGE" gs.logs
            else gs.logs },
       false) := by
  unfold flightStep
  rw [hf, hd, ho]
  dsimp only
  rw [hfb, hfa]
  dsimp only
  rw [if_neg hok, if_neg hprog]
  simp

theorem flightStep_ship (geo : ℕ → String → String → ℚ) (d : ℚ) (gs : GameState) :
    (flightStep geo d gs).1.ship = gs.ship := by
  unfold flightStep
  dsimp only
  repeat' split
  all_goals rfl

theorem flightStep_time (geo : ℕ → String → String → ℚ) (d : ℚ) (gs : GameState) :
    (flightStep geo d gs).1.gameTime = gs.gameTime := by
  unfold flightStep
  dsimp only
  repeat' split
  all_goals rfl

/-- The flight effect either leaves fuel and hull unchanged (no flight in
progress, unknown endpoint, game over, or arrival) or performs one in-flight
step: fuel drops by exactly one tick's burn and hull by 0 or 5. -/
theorem flightStep_resources (geo : ℕ → String → String → ℚ) (d : ℚ) (gs : GameState) :
    ((flightStep geo d gs).1.fuel = gs.fuel ∧ (flightStep geo d gs).1.hull = gs.hull) ∨
    ((flightStep geo d gs).1.fuel = gs.fuel - stepBurn geo gs ∧
      ((flightStep geo d gs).1.hull = gs.hull ∨
        (flightStep geo d gs).1.hull = gs.hull - 5)) := by
  by_cases hf : gs.isFlying = true
  · rcases hd : gs.flightDestinationId with _ | b
    · rw [flightStep_nodest geo d gs hd]
      exact Or.inl ⟨rfl, rfl⟩
    · rcases ho : gs.flightOriginId with _ | a
      · rw [flightStep_noorigin geo d gs b hd ho]
        exact Or.inl ⟨rfl, rfl⟩
      · rcases hfb : LOCATIONS.find? (fun l => l.id == b) with _ | lb
        · rw [flightStep_nofindd geo d gs b a hd ho hfb]
          exact Or.inl ⟨rfl, rfl⟩
        · rcases hfa : LOCATIONS.find? (fun l => l.id == a) with _ | la
          · rw [flightStep_nofindo geo d gs b a lb hd ho hfb hfa]
            exact Or.inl ⟨rfl, rfl⟩
          · by_cases hcrit : gs.fuel ≤ 0 ∨ gs.hull ≤ 0
            · rw [flightStep_crit geo d gs b a lb la hf hd ho hfb hfa hcrit]
              exact Or.inl ⟨rfl, rfl⟩
            · by_cases hprog : 1 ≤ gs.flightProgress
              · rcases hc : gs.activeContract with _ | c
                · rw [flightStep_arrival_none geo d gs b a lb la hf hd ho hfb hfa
                    hcrit hprog hc]
                  exact Or.inl ⟨rfl, rfl⟩
                · by_cases hcd : c.destinationId = b
                  · rw [flightStep_arrival_paid geo d gs b a lb la c hf hd ho hfb hfa
                      hcrit hprog hc hcd]
                    exact Or.inl ⟨rfl, rfl⟩
                  · rw [flightStep_arrival_other geo d gs b a lb la c hf hd ho hfb hfa
                      hcrit hprog hc hcd]
                    exact Or.inl ⟨rfl, rfl⟩
              · rw [flightStep_inflight geo d gs b a lb la hf hd ho hfb hfa hcrit hprog]
                refine Or.inr ⟨?_, ?_⟩
                · show gs.fuel - _ = gs.fuel - stepBurn geo gs
                  simp only [stepBurn]
                  rw [ho, hd]
                  rfl
                · show gs.hull - _ = gs.hull ∨ gs.hull - _ = gs.hull - 5
                  split
                  · exact Or.inr rfl
                  · exact Or.inl (by ring)
  · rw [flightStep_not_flying geo d gs (by simpa using hf)]
    exact Or.inl ⟨rfl, rfl⟩

/-- Case analysis of the flight effect on the flight-related fields: either
it is the identity, or it ends the flight by game over (flight fields kept),
or it ends it by arrival (flight fields cleared), or it performs an in-flight
step (progress advances by 1/120). -/
theorem flightStep_fields (geo : ℕ → String → String → ℚ) (d : ℚ) (gs : GameState) :
    ((flightStep geo d gs) = (gs, false)) ∨
    ((flightStep geo d gs).2 = true ∧ gs.isFlying = true ∧
      (flightStep geo d gs).1.isFlying = false ∧
      (flightStep geo d gs).1.flightOriginId = gs.flightOriginId ∧
      (flightStep geo d gs).1.flightDestinationId = gs.flightDestinationId ∧
      (flightStep geo d gs).1.flightProgress = gs.flightProgress) ∨
    ((flightStep geo d gs).2 = false ∧ gs.isFlying = true ∧
      (flightStep geo d gs).1.isFlying = false ∧
      (flightStep geo d gs).1.flightOriginId = none ∧
      (flightStep geo d gs).1.flightDestinationId = none ∧
      (flightStep geo d gs).1.flightProgress = 0) ∨
    ((flightStep geo d gs).2 = false ∧ gs.isFlying = true ∧
      ¬ 1 ≤ gs.flightProgress ∧
      (flightStep geo d gs).1.isFlying = true ∧
      (flightStep geo d gs).1.flightOriginId = gs.flightOriginId ∧
      (flightStep geo d gs).1.flightDestinationId = gs.flightDestinationId ∧
      (flightStep geo d gs).1.flightProgress = gs.flightProgress + 1 / 120) := by
  by_cases hf : gs.isFlying = true
  · rcases hd : gs.flightDestinationId with _ | b
    · exact Or.inl (flightStep_nodest geo d gs hd)
    · rcases ho : gs.flightOriginId with _ | a
      · exact Or.inl (flightStep_noorigin geo d gs b hd ho)
      · rcases hfb : LOCATIONS.find? (fun l => l.id == b) with _ | lb
        · exact Or.inl (flightStep_nofindd geo d gs b a hd ho hfb)
        · rcases hfa : LOCATIONS.find? (fun l => l.id == a) with _ | la
          · exact Or.inl (flightStep_nofindo geo d gs b a lb hd ho hfb hfa)
          · by_cases hcrit : gs.fuel ≤ 0 ∨ gs.hull ≤ 0
            · rw [flightStep_crit geo d gs b a lb la hf hd ho hfb hfa hcrit]
              exact Or.inr (Or.inl ⟨rfl, hf, rfl, ho, hd, rfl⟩)
            · by_cases hprog : 1 ≤ gs.flightProgress
              · rcases hc : gs.activeContract with _ | c
                · rw [flightStep_arrival_none geo d gs b a lb la hf hd ho hfb hfa
                    hcrit hprog hc]
                  exact Or.inr (Or.inr (Or.inl ⟨rfl, hf, rfl, rfl, rfl, rfl⟩))
                · by_cases hcd : c.destinationId = b
                  · rw [flightStep_arrival_paid geo d gs b a lb la c hf hd ho hfb hfa
                      hcrit hprog hc hcd]
                    exact Or.inr (Or.inr (Or.inl ⟨rfl, hf, rfl, rfl, rfl, rfl⟩))
                  · rw [flightStep_arrival_other geo d gs b a lb la c hf hd ho hfb hfa
                      hcrit hprog hc hcd]
                    exact Or.inr (Or.inr (Or.inl ⟨rfl, hf, rfl, rfl, rfl, rfl⟩))
              · rw [flightStep_inflight geo d gs b a lb la hf hd ho hfb hfa hcrit hprog]
                exact Or.inr (Or.inr (Or.inr ⟨rfl, hf, hprog, hf, ho, hd, rfl⟩))
  · exact Or.inl (flightStep_not_flying geo d gs (by simpa using hf))

theorem tickWorld_gs (geo : ℕ → String → String → ℚ) (o : TickOracle) (w : World) :
    (tickWorld geo o w).gs =
      (flightStep geo o.hazardDraw
        (contractMaintenance w.pool (updateGameLoopStep w.gs) o.maint).2).1 := rfl

theorem tickWorld_gameOver (geo : ℕ → String → String → ℚ) (o : TickOracle) (w : World) :
    (tickWorld geo o w).gameOver =
      (w.gameOver ||
        (flightStep geo o.hazardDraw
          (contractMaintenance w.pool (updateGameLoopStep w.gs) o.maint).2).2) := rfl

/-! ### Claim theorems -/

/-- C1 counterexample: from an in-flight state satisfying the resource
bounds (`fuel = 1/2`, `hull = 100`), the next tick burns one fuel with no
lower clamp (`fuel: prev.fuel - fuelBurn` in the source), leaving fuel
strictly negative — the claimed clamp at 0 does not exist. -/
theorem C1_counterexample :
    Bounds wLowFuel.gs ∧ wLowFuel.gs.isFlying = true ∧
      (tickWorld geoC oC wLowFuel).gs.fuel < 0 := by decide

/-- C5 (confirmed): `handleAcceptContract` while an active contract exists
fails (error log and error sound, offer pool untouched, active contract
kept); on success the accepted contract becomes the single active contract
and every offer with its id is removed from the pool. -/
theorem C5_accept_guard (w : World) (c : Contract) :
    (w.gs.activeContract.isSome = true →
      (handleAcceptContract c w).1.pool = w.pool ∧
      (handleAcceptContract c w).1.gs.activeContract = w.gs.activeContract ∧
      (handleAcceptContract c w).2 = [Signal.errorSound] ∧
      (handleAcceptContract c w).1.gs.logs =
        addLogList "ERROR: ACTIVE CONTRACT IN PROGRESS." w.gs.logs) ∧
    (w.gs.activeContract = none →
      (handleAcceptContract c w).1.gs.activeContract = some c ∧
      (handleAcceptContract c w).1.pool = w.pool.filter (fun con => con.id != c.id) ∧
      c ∉ (handleAcceptContract c w).1.pool) := by
  constructor
  · intro h
    unfold handleAcceptContract
    rw [if_pos h]
    exact ⟨rfl, rfl, rfl, rfl⟩
  · intro h
    unfold handleAcceptContract
    rw [if_neg (by simp [h])]
    refine ⟨rfl, rfl, ?_⟩
    simp [List.mem_filter]

/-- Witness for C5 at concrete inputs: with `cDeliver` active, accepting
leaves the pool unchanged; from the fresh initial world, accepting `cDeliver`
makes it the active contract. -/
theorem C5_accept_guard_witness :
    (handleAcceptContract cDeliver wActive).1.pool = wActive.pool ∧
    (handleAcceptContract cDeliver w0).1.gs.activeContract = some cDeliver := by
  refine ⟨((C5_accept_guard wActive cDeliver).1 (by decide)).1,
    ((C5_accept_guard w0 cDeliver).2 (by decide)).1⟩

/-- C10 (confirmed): the accept operation's only precondition is the absence
of an active contract — it fails (error signal) iff `activeContract` is
non-null, and when it is null the accept succeeds with no condition on fuel
(fuel is not even read: it is returned unchanged). -/
theorem C10_accept_no_fuel_check (w : World) (c : Contract) :
    ((handleAcceptContract c w).2 = [Signal.errorSound] ↔
      w.gs.activeContract.isSome = true) ∧
    (w.gs.activeContract = none →
      (handleAcceptContract c w).1.gs.activeContract = some c ∧
      (handleAcceptContract c w).1.gs.fuel = w.gs.fuel) := by
  constructor
  · constructor
    · intro h
      by_contra hn
      unfold handleAcceptContract at h
      rw [if_neg hn] at h
      simp at h
    · intro h
      unfold handleAcceptContract
      rw [if_pos h]
  · intro h
    unfold handleAcceptContract
    rw [if_neg (by simp [h])]
    exact ⟨rfl, rfl⟩

/-- Witness for C10 at a concrete input: with fuel 1, strictly below the
120-fuel cost of the route to the contract destination under `geoC`, the
accept still succeeds. -/
theorem C10_accept_no_fuel_check_witness :
    wPoor.gs.fuel <
      geoC wPoor.gs.gameTime wPoor.gs.currentLocationId cDeliver.destinationId *
        wPoor.gs.ship.fuelEfficiency * (1/2) ∧
    (handleAcceptContract cDeliver wPoor).1.gs.activeContract = some cDeliver := by
  refine ⟨by decide, ((C10_accept_no_fuel_check wPoor cDeliver).2 (by decide)).1⟩

/-- C4 counterexample: a `startTravel` rejected for insufficient fuel is not
a no-op on `GameState` — `addLog` prepends an error entry to the `logs`
field, so the resulting `GameState` differs from the original (its other
fields, including `isFlying`, are unchanged). -/
theorem C4_counterexample :
    w0.gs.fuel < geoBig w0.gs.gameTime "station-x33" "moon-glimmer" *
        w0.gs.ship.fuelEfficiency * (1/2) ∧
      (startTravel geoBig "moon-glimmer" w0).1.gs ≠ w0.gs ∧
      (startTravel geoBig "moon-glimmer" w0).1.gs.isFlying = false := by decide

/-- C4 amended: when fuel is strictly below the route cost, `startTravel`
fails, changing only the log buffer (error entry) and emitting the error
sound — in particular `isFlying` is unchanged; with enough fuel it records
origin and destination, sets `isFlying` and resets progress to 0. -/
theorem C4_startTravel_guard (geo : ℕ → String → String → ℚ) (tid : String)
    (w : World) (origin dest : Location)
    (ho : LOCATIONS.find? (fun l => l.id == w.gs.currentLocationId) = some origin)
    (hd : LOCATIONS.find? (fun l => l.id == tid) = some dest) :
    (w.gs.fuel <
        geo w.gs.gameTime origin.id dest.id * w.gs.ship.fuelEfficiency * (1/2) →
      (startTravel geo tid w).1 =
        { w with gs := { w.gs with
            logs := addLogList "ERROR: INSUFFICIENT FUEL FOR TRAJECTORY." w.gs.logs } } ∧
      (startTravel geo tid w).1.gs.isFlying = w.gs.isFlying ∧
      (startTravel geo tid w).2 = [Signal.clickSound, Signal.errorSound]) ∧
    (¬ w.gs.fuel <
        geo w.gs.gameTime origin.id dest.id * w.gs.ship.fuelEfficiency * (1/2) →
      (startTravel geo tid w).1.gs.isFlying = true ∧
      (startTravel geo tid w).1.gs.flightOriginId = some origin.id ∧
      (startTravel geo tid w).1.gs.flightDestinationId = some dest.id ∧
      (startTravel geo tid w).1.gs.flightProgress = 0) := by
  constructor
  · intro h
    unfold startTravel
    dsimp only
    rw [ho, hd]
    dsimp only
    rw [if_pos h]
    exact ⟨rfl, rfl, rfl⟩
  · intro h
    unfold startTravel
    dsimp only
    rw [ho, hd]
    dsimp only
    rw [if_neg h]
    exact ⟨rfl, rfl, rfl, rfl⟩

/-- Witness for the amended C4 at concrete inputs: under `geoBig` the call
from the initial world is rejected with only a log change; under `geoC` it
succeeds and sets up the flight. -/
theorem C4_startTravel_guard_witness :
    (startTravel geoBig "moon-glimmer" w0).2 = [Signal.clickSound, Signal.errorSound] ∧
    (startTravel geoC "moon-glimmer" w0).1.gs.isFlying = true ∧
    (startTravel geoC "moon-glimmer" w0).1.gs.flightProgress = 0 := by
  have h1 := (C4_startTravel_guard geoBig "moon-glimmer" w0 lX33 lGlimmer
    (by decide) (by decide)).1 (by decide)
  have h2 := (C4_startTravel_guard geoC "moon-glimmer" w0 lX33 lGlimmer
    (by decide) (by decide)).2 (by decide)
  exact ⟨h1.2.2, h2.1, h2.2.2.2⟩

/-- C8 counterexample: the risk level of a generated contract is not a
function of a single uniform draw.  With the first risk draw fixed at 0.5
(which the claimed rule maps to MED), the code yields MED or LOW depending
on the second draw; with the second draw fixed at 0.3, it yields LOW or HIGH
depending on the first. -/
theorem C8_counterexample :
    ((generateNewContract "station-x33" 0
        { gC with riskDraw1 := 1/2, riskDraw2 := 9/10 }).map Contract.riskLevel =
      some Risk.MED) ∧
    ((generateNewContract "station-x33" 0
        { gC with riskDraw1 := 1/2, riskDraw2 := 3/10 }).map Contract.riskLevel =
      some Risk.LOW) ∧
    ((generateNewContract "station-x33" 0
        { gC with riskDraw1 := 4/5, riskDraw2 := 3/10 }).map Contract.riskLevel =
      some Risk.HIGH) := by decide

/-- Every template-table entry read by the generator has one of the six base
pays of the table (or the 0 of the out-of-range default). -/
theorem basePay_cases (i : ℕ) :
    (CONTRACT_TEMPLATES.getD i defaultTemplate).basePay = 400 ∨
    (CONTRACT_TEMPLATES.getD i defaultTemplate).basePay = 250 ∨
    (CONTRACT_TEMPLATES.getD i defaultTemplate).basePay = 300 ∨
    (CONTRACT_TEMPLATES.getD i defaultTemplate).basePay = 600 ∨
    (CONTRACT_TEMPLATES.getD i defaultTemplate).basePay = 150 ∨
    (CONTRACT_TEMPLATES.getD i defaultTemplate).basePay = 200 ∨
    (CONTRACT_TEMPLATES.getD i defaultTemplate).basePay = 0 := by
  rcases i with _ | _ | _ | _ | _ | _ | i
  · exact Or.inl (by decide)
  · exact Or.inr (Or.inl (by decide))
  · exact Or.inr (Or.inr (Or.inl (by decide)))
  · exact Or.inr (Or.inr (Or.inr (Or.inl (by decide))))
  · exact Or.inr (Or.inr (Or.inr (Or.inr (Or.inl (by decide)))))
  · exact Or.inr (Or.inr (Or.inr (Or.inr (Or.inr (Or.inl (by decide))))))
  · refine Or.inr (Or.inr (Or.inr (Or.inr (Or.inr (Or.inr ?_)))))
    simp [CONTRACT_TEMPLATES, List.getD, defaultTemplate]

/-- C8 amended: risk is drawn from two independent draws — the first
compared against 0.7 for HIGH, otherwise the second against 0.4 for MED,
else LOW — and pay is the chosen template's base pay plus the risk bonus
(HIGH +200, MED +80, LOW +0). -/
theorem C8_generate_risk_pay (stationId : String) (t : ℕ) (g : GenDraws)
    (c : Contract) (h : generateNewContract stationId t g = some c) :
    c.riskLevel = (if (0.7 : ℚ) < g.riskDraw1 then Risk.HIGH
      else if (0.4 : ℚ) < g.riskDraw2 then Risk.MED else Risk.LOW) ∧
    c.pay = (CONTRACT_TEMPLATES.getD (natFloor g.templateDraw CONTRACT_TEMPLATES.length)
        defaultTemplate).basePay +
      (match (if (0.7 : ℚ) < g.riskDraw1 then Risk.HIGH
        else if (0.4 : ℚ) < g.riskDraw2 then Risk.MED else Risk.LOW) with
        | .HIGH => (200 : ℚ) | .MED => 80 | .LOW => 0) := by
  unfold generateNewContract at h
  rcases hs : LOCATIONS.find? (fun l => l.id == stationId) with _ | station
  · rw [hs] at h
    exact absurd h (by simp)
  · rw [hs] at h
    dsimp only at h
    rw [Option.some_inj] at h
    subst h
    refine ⟨rfl, ?_⟩
    rcases basePay_cases (natFloor g.templateDraw CONTRACT_TEMPLATES.length) with
      hb | hb | hb | hb | hb | hb | hb <;>
    · dsimp only
      rw [hb]
      split <;> decide

/-- Witness for the amended C8 at a concrete input: first risk draw 0.5 and
second 0.9 give MED risk and pay 300 + 80 for the "Perishable Food"
template. -/
theorem C8_generate_risk_pay_witness :
    cMedWit.riskLevel = Risk.MED ∧ cMedWit.pay = 300 + 80 := by
  have hg : generateNewContract "station-x33" 0 gMedWit = some cMedWit := by decide
  have h := C8_generate_risk_pay "station-x33" 0 gMedWit cMedWit hg
  constructor
  · rw [h.1]
    decide
  · rw [h.2]
    decide

/-- C9 counterexample: both refuel rejections are silent no-ops.  A refuel
request of 0 (non-positive) and a refuel of 300 litres (cost 360 over the
150-credit balance) both return the world unchanged and emit no signal at
all — no log entry and no sound — contradicting the claim that every
rejected command produces a distinguishable signal. -/
theorem C9_counterexample :
    confirmRefuel 0 w0 = (w0, []) ∧
    ((0 : ℚ) < 300 ∧ w0.gs.credits < (((300 : ℚ) * (1.2 : ℚ)).floor : ℤ) ∧
      confirmRefuel 300 w0 = (w0, [])) := by decide

/-- C2 (confirmed): an arrival tick — in flight, progress ≥ 1, fuel and hull
still positive so the game-over check that runs first does not fire — sets
`currentLocationId` to the flight destination, clears origin and
destination, resets progress to 0, ends the flight, and when the active
contract's destination equals the arrival location it adds exactly
`contract.pay` credits, +5 reputation for the contract's faction when that
faction is not NEUTRAL, and clears the active contract. -/
theorem C2_arrival_settlement (geo : ℕ → String → String → ℚ) (o : TickOracle)
    (w : World) (b a : String) (lb la : Location)
    (hf : w.gs.isFlying = true)
    (hd : w.gs.flightDestinationId = some b) (ho : w.gs.flightOriginId = some a)
    (hfb : LOCATIONS.find? (fun l => l.id == b) = some lb)
    (hfa : LOCATIONS.find? (fun l => l.id == a) = some la)
    (hfuel : 0 < w.gs.fuel) (hhull : 0 < w.gs.hull)
    (hprog : 1 ≤ w.gs.flightProgress) :
    (tickWorld geo o w).gs.currentLocationId = b ∧
    (tickWorld geo o w).gs.flightOriginId = none ∧
    (tickWorld geo o w).gs.flightDestinationId = none ∧
    (tickWorld geo o w).gs.flightProgress = 0 ∧
    (tickWorld geo o w).gs.isFlying = false ∧
    (∀ c : Contract, w.gs.activeContract = some c → c.destinationId = b →
      (tickWorld geo o w).gs.credits = w.gs.credits + c.pay ∧
      (tickWorld geo o w).gs.activeContract = none ∧
      (c.faction ≠ Faction.NEUTRAL →
        repGet (tickWorld geo o w).gs.reputation c.faction =
          repGet w.gs.reputation c.faction + 5)) := by
  have hgs := tickWorld_gs geo o w
  set gs2 := (contractMaintenance w.pool (updateGameLoopStep w.gs) o.maint).2 with hgs2
  have e_fly : gs2.isFlying = true := by
    rw [hgs2, maint_isFlying, ugl_isFlying, hf]
  have e_d : gs2.flightDestinationId = some b := by
    rw [hgs2, maint_dest, ugl_dest, hd]
  have e_o : gs2.flightOriginId = some a := by
    rw [hgs2, maint_origin, ugl_origin, ho]
  have e_fuel : gs2.fuel = w.gs.fuel := by rw [hgs2, maint_fuel, ugl_fuel]
  have e_hull : gs2.hull = w.gs.hull := by rw [hgs2, maint_hull, ugl_hull]
  have e_prog : gs2.flightProgress = w.gs.flightProgress := by
    rw [hgs2, maint_progress, ugl_progress]
  have e_credits : gs2.credits = w.gs.credits := by
    rw [hgs2, maint_credits, ugl_credits_flying w.gs hf]
  have e_rep : gs2.reputation = w.gs.reputation := by rw [hgs2, maint_rep, ugl_rep]
  have e_ac : gs2.activeContract = w.gs.activeContract := by
    rw [hgs2, maint_active, ugl_active]
  have hok : ¬ (gs2.fuel ≤ 0 ∨ gs2.hull ≤ 0) := by
    rw [e_fuel, e_hull]
    push_neg
    exact ⟨hfuel, hhull⟩
  have hprog2 : 1 ≤ gs2.flightProgress := by rw [e_prog]; exact hprog
  rcases hc : w.gs.activeContract with _ | c
  · have e_ac2 : gs2.activeContract = none := by rw [e_ac, hc]
    rw [hgs, flightStep_arrival_none geo o.hazardDraw gs2 b a lb la e_fly e_d e_o
      hfb hfa hok hprog2 e_ac2]
    refine ⟨rfl, rfl, rfl, rfl, rfl, ?_⟩
    intro c hcc
    exact absurd hcc (by simp)
  · by_cases hcd : c.destinationId = b
    · have e_ac2 : gs2.activeContract = some c := by rw [e_ac, hc]
      rw [hgs, flightStep_arrival_paid geo o.hazardDraw gs2 b a lb la c e_fly e_d e_o
        hfb hfa hok hprog2 e_ac2 hcd]
      refine ⟨rfl, rfl, rfl, rfl, rfl, ?_⟩
      intro c' hcc' hcd'
      rw [Option.some_inj] at hcc'
      subst hcc'
      refine ⟨by show gs2.credits + c.pay = _; rw [e_credits], rfl, ?_⟩
      intro hne
      show repGet (if c.faction ≠ Faction.NEUTRAL then repAdd gs2.reputation c.faction 5
        else gs2.reputation) c.faction = _
      rw [if_pos hne, repGet_repAdd, e_rep]
    · have e_ac2 : gs2.activeContract = some c := by rw [e_ac, hc]
      rw [hgs, flightStep_arrival_other geo o.hazardDraw gs2 b a lb la c e_fly e_d e_o
        hfb hfa hok hprog2 e_ac2 hcd]
      refine ⟨rfl, rfl, rfl, rfl, rfl, ?_⟩
      intro c' hcc' hcd'
      rw [Option.some_inj] at hcc'
      subst hcc'
      exact absurd hcd' hcd

/-- Witness for C2 at a concrete input: the arrival tick from `wArrive`
(carrying `cDeliver`, pay 380, faction X33, at progress 1) docks the ship at
Glimmer, pays 150 + 380 credits, raises X-33 reputation from 50 to 55 and
clears the contract. -/
theorem C2_arrival_settlement_witness :
    (tickWorld geoC oC wArrive).gs.currentLocationId = "moon-glimmer" ∧
    (tickWorld geoC oC wArrive).gs.credits = wArrive.gs.credits + 380 ∧
    (tickWorld geoC oC wArrive).gs.activeContract = none ∧
    repGet (tickWorld geoC oC wArrive).gs.reputation Faction.X33 =
      repGet wArrive.gs.reputation Faction.X33 + 5 := by
  have h := C2_arrival_settlement geoC oC wArrive "moon-glimmer" "station-x33"
    lGlimmer lX33 (by decide) (by decide) (by decide) (by decide) (by decide)
    (by decide) (by decide) (by decide)
  have hpay := h.2.2.2.2.2 cDeliver (by decide) (by decide)
  exact ⟨h.1, hpay.1, hpay.2.1, hpay.2.2 (by decide)⟩

/-- C7 counterexample: `wCrash` is a game-over state reached mid-flight,
yet the next tick still mutates GameState — the animation loop keeps running
and increments `gameTime`. -/
theorem C7_counterexample :
    wCrash.gameOver = true ∧ (tickWorld geoC oC wCrash).gs ≠ wCrash.gs := by decide

/-- C7 amended: (1) the game-over check runs before the arrival check — a
tick taken while flying with exhausted fuel or hull enters the terminal
state without settling the arrival even when progress ≥ 1 (location,
credits, contract, fuel and hull untouched, flight merely stops); (2) after
game over the flight state stays frozen, but ticks keep mutating GameState:
`gameTime` increments on every tick. -/
theorem C7_gameover (geo : ℕ → String → String → ℚ) (o : TickOracle)
    (w : World) (b a : String) (lb la : Location) :
    (w.gs.isFlying = true → w.gs.flightDestinationId = some b →
      w.gs.flightOriginId = some a →
      LOCATIONS.find? (fun l => l.id == b) = some lb →
      LOCATIONS.find? (fun l => l.id == a) = some la →
      (w.gs.fuel ≤ 0 ∨ w.gs.hull ≤ 0) →
      (tickWorld geo o w).gameOver = true ∧
      (tickWorld geo o w).gs.isFlying = false ∧
      (tickWorld geo o w).gs.currentLocationId = w.gs.currentLocationId ∧
      (tickWorld geo o w).gs.credits = w.gs.credits ∧
      (tickWorld geo o w).gs.activeContract = w.gs.activeContract ∧
      (tickWorld geo o w).gs.fuel = w.gs.fuel ∧
      (tickWorld geo o w).gs.hull = w.gs.hull) ∧
    (w.gameOver = true → w.gs.isFlying = false →
      (tickWorld geo o w).gameOver = true ∧
      (tickWorld geo o w).gs.isFlying = false ∧
      (tickWorld geo o w).gs.fuel = w.gs.fuel ∧
      (tickWorld geo o w).gs.hull = w.gs.hull ∧
      (tickWorld geo o w).gs.flightProgress = w.gs.flightProgress ∧
      (tickWorld geo o w).gs.flightOriginId = w.gs.flightOriginId ∧
      (tickWorld geo o w).gs.flightDestinationId = w.gs.flightDestinationId ∧
      (tickWorld geo o w).gs.currentLocationId = w.gs.currentLocationId ∧
      (tickWorld geo o w).gs.activeContract = w.gs.activeContract ∧
      (tickWorld geo o w).gs.reputation = w.gs.reputation ∧
      (tickWorld geo o w).gs.gameTime = w.gs.gameTime + 1) := by
  have hgs := tickWorld_gs geo o w
  have hgo := tickWorld_gameOver geo o w
  set gs2 := (contractMaintenance w.pool (updateGameLoopStep w.gs) o.maint).2 with hgs2
  constructor
  · intro hf hd ho hfb hfa hcrit
    have e_fly : gs2.isFlying = true := by
      rw [hgs2, maint_isFlying, ugl_isFlying, hf]
    have e_d : gs2.flightDestinationId = some b := by
      rw [hgs2, maint_dest, ugl_dest, hd]
    have e_o : gs2.flightOriginId = some a := by
      rw [hgs2, maint_origin, ugl_origin, ho]
    have hcrit2 : gs2.fuel ≤ 0 ∨ gs2.hull ≤ 0 := by
      rw [hgs2, maint_fuel, ugl_fuel, maint_hull, ugl_hull]
      exact hcrit
    have hstep := flightStep_crit geo o.hazardDraw gs2 b a lb la e_fly e_d e_o
      hfb hfa hcrit2
    refine ⟨?_, ?_, ?_, ?_, ?_, ?_, ?_⟩
    · rw [hgo, hstep]
      simp
    · rw [hgs, hstep]
    · rw [hgs, hstep]
      show gs2.currentLocationId = _
      rw [hgs2, maint_loc, ugl_loc]
    · rw [hgs, hstep]
      show gs2.credits = _
      rw [hgs2, maint_credits, ugl_credits_flying w.gs hf]
    · rw [hgs, hstep]
      show gs2.activeContract = _
      rw [hgs2, maint_active, ugl_active]
    · rw [hgs, hstep]
      show gs2.fuel = _
      rw [hgs2, maint_fuel, ugl_fuel]
    · rw [hgs, hstep]
      show gs2.hull = _
      rw [hgs2, maint_hull, ugl_hull]
  · intro hg hf
    have e_fly2 : gs2.isFlying = false := by
      rw [hgs2, maint_isFlying, ugl_isFlying, hf]
    have hstep := flightStep_not_flying geo o.hazardDraw gs2 e_fly2
    refine ⟨?_, ?_, ?_, ?_, ?_, ?_, ?_, ?_, ?_, ?_, ?_⟩
    · rw [hgo, hstep, hg]
      rfl
    · rw [hgs, hstep]
      exact e_fly2
    · rw [hgs, hstep]
      show gs2.fuel = _
      rw [hgs2, maint_fuel, ugl_fuel]
    · rw [hgs, hstep]
      show gs2.hull = _
      rw [hgs2, maint_hull, ugl_hull]
    · rw [hgs, hstep]
      show gs2.flightProgress = _
      rw [hgs2, maint_progress, ugl_progress]
    · rw [hgs, hstep]
      show gs2.flightOriginId = _
      rw [hgs2, maint_origin, ugl_origin]
    · rw [hgs, hstep]
      show gs2.flightDestinationId = _
      rw [hgs2, maint_dest, ugl_dest]
    · rw [hgs, hstep]
      show gs2.currentLocationId = _
      rw [hgs2, maint_loc, ugl_loc]
    · rw [hgs, hstep]
      show gs2.activeContract = _
      rw [hgs2, maint_active, ugl_active]
    · rw [hgs, hstep]
      show gs2.reputation = _
      rw [hgs2, maint_rep, ugl_rep]
    · rw [hgs, hstep]
      show gs2.gameTime = _
      rw [hgs2, maint_time, ugl_time]

/-- Witness for the amended C7 at a concrete input: from the game-over world
`wCrash`, the next tick keeps the crash state frozen yet advances
`gameTime`. -/
theorem C7_gameover_witness :
    (tickWorld geoC oC wCrash).gs.gameTime = wCrash.gs.gameTime + 1 ∧
    (tickWorld geoC oC wCrash).gs.fuel = wCrash.gs.fuel ∧
    (tickWorld geoC oC wCrash).gameOver = true := by
  have h := (C7_gameover geoC oC wCrash "" "" lX33 lX33).2 (by decide) (by decide)
  exact ⟨h.2.2.2.2.2.2.2.2.2.2, h.2.2.1, h.1⟩

/-- C9 amended: rejected startTravel, acceptContract and repair commands do
produce a distinguishable signal (error log entry and error sound), but both
refuel rejections — non-positive amount and insufficient funds — are silent
no-ops: the world is returned unchanged and no signal of any kind is
emitted. -/
theorem C9_signals (w : World) (amt price : ℚ) (loc : Location)
    (geo : ℕ → String → String → ℚ) (tid : String) (origin dest : Location)
    (c : Contract) :
    (amt ≤ 0 → confirmRefuel amt w = (w, [])) ∧
    (LOCATIONS.find? (fun l => l.id == w.gs.currentLocationId) = some loc →
      loc.fuelPrice = some price → ¬ price = 0 → 0 < amt →
      w.gs.credits < (((amt * price).floor : ℤ) : ℚ) →
      confirmRefuel amt w = (w, [])) ∧
    (w.gs.activeContract.isSome = true →
      (handleAcceptContract c w).2 = [Signal.errorSound] ∧
      (handleAcceptContract c w).1.gs.logs =
        addLogList "ERROR: ACTIVE CONTRACT IN PROGRESS." w.gs.logs) ∧
    (LOCATIONS.find? (fun l => l.id == w.gs.currentLocationId) = some origin →
      LOCATIONS.find? (fun l => l.id == tid) = some dest →
      w.gs.fuel < geo w.gs.gameTime origin.id dest.id * w.gs.ship.fuelEfficiency * (1/2) →
      (startTravel geo tid w).2 = [Signal.clickSound, Signal.errorSound] ∧
      (startTravel geo tid w).1.gs.logs =
        addLogList "ERROR: INSUFFICIENT FUEL FOR TRAJECTORY." w.gs.logs) ∧
    (0 < w.gs.ship.maxHull - w.gs.hull →
      w.gs.credits < (w.gs.ship.maxHull - w.gs.hull) * 2 →
      (handleRepair w).2 = [Signal.errorSound] ∧
      (handleRepair w).1.gs.logs = addLogList "INSUFFICIENT FUNDS." w.gs.logs) := by
  refine ⟨?_, ?_, ?_, ?_, ?_⟩
  · intro h
    unfold confirmRefuel
    dsimp only
    rcases hfind : LOCATIONS.find? (fun l => l.id == w.gs.currentLocationId)
      with _ | loc'
    · simp [hfind]
    · rcases hp : loc'.fuelPrice with _ | p
      · simp [hfind, hp]
      · simp [hfind, hp, h]
  · intro hfind hp hp0 hamt hcred
    unfold confirmRefuel
    dsimp only
    rw [hfind]
    dsimp only
    rw [hp]
    dsimp only
    rw [if_neg (by push_neg; exact ⟨hp0, hamt⟩)]
    rw [if_neg (not_le.2 hcred)]
  · intro h
    unfold handleAcceptContract
    rw [if_pos h]
    exact ⟨rfl, rfl⟩
  · intro hfind1 hfind2 h
    unfold startTravel
    dsimp only
    rw [hfind1, hfind2]
    dsimp only
    rw [if_pos h]
    exact ⟨rfl, rfl⟩
  · intro h1 h2
    unfold handleRepair
    dsimp only
    rw [if_neg (not_le.2 h1), if_neg (not_le.2 h2)]
    exact ⟨rfl, rfl⟩

/-- Witness for the amended C9 at concrete inputs: the zero-amount refuel
from the initial world returns it unchanged with no signal, and a rejected
travel emits the error signal. -/
theorem C9_signals_witness :
    confirmRefuel 0 w0 = (w0, []) ∧
    (startTravel geoBig "moon-glimmer" w0).2 =
      [Signal.clickSound, Signal.errorSound] := by
  have h := C9_signals w0 0 (1.2 : ℚ) lX33 geoBig "moon-glimmer" lX33 lGlimmer cDeliver
  exact ⟨h.1 (by decide),
    (h.2.2.2.1 (by decide) (by decide) (by decide)).1⟩

theorem travel_resources (geo : ℕ → String → String → ℚ) (tid : String) (w : World) :
    (startTravel geo tid w).1.gs.fuel = w.gs.fuel ∧
    (startTravel geo tid w).1.gs.hull = w.gs.hull ∧
    (startTravel geo tid w).1.gs.ship = w.gs.ship := by
  unfold startTravel
  dsimp only
  repeat' split
  all_goals exact ⟨rfl, rfl, rfl⟩

theorem accept_resources (c : Contract) (w : World) :
    (handleAcceptContract c w).1.gs.fuel = w.gs.fuel ∧
    (handleAcceptContract c w).1.gs.hull = w.gs.hull ∧
    (handleAcceptContract c w).1.gs.ship = w.gs.ship := by
  unfold handleAcceptContract
  split
  all_goals exact ⟨rfl, rfl, rfl⟩

theorem refuel_fields (amt : ℚ) (w : World) :
    (confirmRefuel amt w).1 = w ∨
    (0 < amt ∧
      (confirmRefuel amt w).1.gs.fuel = min w.gs.ship.maxFuel (w.gs.fuel + amt) ∧
      (confirmRefuel amt w).1.gs.hull = w.gs.hull ∧
      (confirmRefuel amt w).1.gs.ship = w.gs.ship) := by
  unfold confirmRefuel
  dsimp only
  rcases hfind : LOCATIONS.find? (fun l => l.id == w.gs.currentLocationId)
    with _ | loc
  · left
    rw [hfind]
  · rw [hfind]
    dsimp only
    rcases hp : loc.fuelPrice with _ | p
    · left
      rfl
    · dsimp only
      by_cases hz : p = 0 ∨ amt ≤ 0
      · rw [if_pos hz]
        left; rfl
      · rw [if_neg hz]
        push_neg at hz
        split
        · right
          exact ⟨hz.2, rfl, rfl, rfl⟩
        · left; rfl

theorem repair_fields (w : World) :
    (handleRepair w).1.gs.fuel = w.gs.fuel ∧
    (handleRepair w).1.gs.ship = w.gs.ship ∧
    ((handleRepair w).1.gs.hull = w.gs.hull ∨
      (handleRepair w).1.gs.hull = w.gs.ship.maxHull) := by
  unfold handleRepair
  dsimp only
  split
  · exact ⟨rfl, rfl, Or.inl rfl⟩
  · split
    · exact ⟨rfl, rfl, Or.inr rfl⟩
    · exact ⟨rfl, rfl, Or.inl rfl⟩

theorem tick_burn_eq (geo : ℕ → String → String → ℚ) (o : TickOracle) (w : World) :
    stepBurn geo (contractMaintenance w.pool (updateGameLoopStep w.gs) o.maint).2 =
      tickFuelBurn geo w.gs := by
  unfold stepBurn tickFuelBurn
  rw [maint_time, ugl_time, maint_origin, ugl_origin, maint_dest, ugl_dest,
    maint_ship, ugl_ship]

theorem tick_resources (geo : ℕ → String → String → ℚ) (o : TickOracle) (w : World) :
    (tickWorld geo o w).gs.ship = w.gs.ship ∧
    (((tickWorld geo o w).gs.fuel = w.gs.fuel ∧
        (tickWorld geo o w).gs.hull = w.gs.hull) ∨
      ((tickWorld geo o w).gs.fuel = w.gs.fuel - tickFuelBurn geo w.gs ∧
        ((tickWorld geo o w).gs.hull = w.gs.hull ∨
          (tickWorld geo o w).gs.hull = w.gs.hull - 5))) := by
  have hgs := tickWorld_gs geo o w
  set gs2 := (contractMaintenance w.pool (updateGameLoopStep w.gs) o.maint).2 with hgs2
  have e_fuel : gs2.fuel = w.gs.fuel := by rw [hgs2, maint_fuel, ugl_fuel]
  have e_hull : gs2.hull = w.gs.hull := by rw [hgs2, maint_hull, ugl_hull]
  have e_ship : gs2.ship = w.gs.ship := by rw [hgs2, maint_ship, ugl_ship]
  have hburn : stepBurn geo gs2 = tickFuelBurn geo w.gs := tick_burn_eq geo o w
  constructor
  · rw [hgs, flightStep_ship, e_ship]
  · rcases flightStep_resources geo o.hazardDraw gs2 with ⟨hfu, hhu⟩ | ⟨hfu, hhu⟩
    · left
      rw [hgs, hfu, hhu, e_fuel, e_hull]
      exact ⟨rfl, rfl⟩
    · right
      constructor
      · rw [hgs, hfu, e_fuel, hburn]
      · rcases hhu with hhu | hhu
        · left
          rw [hgs, hhu, e_hull]
        · right
          rw [hgs, hhu, e_hull]

theorem tick_gs_not_flying (geo : ℕ → String → String → ℚ) (o : TickOracle)
    (w : World) (hf : w.gs.isFlying = false) :
    (tickWorld geo o w).gs =
      (contractMaintenance w.pool (updateGameLoopStep w.gs) o.maint).2 := by
  rw [tickWorld_gs, flightStep_not_flying]
  rw [maint_isFlying, ugl_isFlying, hf]

theorem tickFuelBurn_nonneg (geo : ℕ → String → String → ℚ)
    (hgeo : ∀ t x y, 0 ≤ geo t x y) (gs : GameState)
    (heff : 0 ≤ gs.ship.fuelEfficiency) : 0 ≤ tickFuelBurn geo gs := by
  unfold tickFuelBurn
  have h1 := hgeo (gs.gameTime + 1) (gs.flightOriginId.getD "")
    (gs.flightDestinationId.getD "")
  positivity

/-- C1 amended: every operation preserves the upper bounds
`fuel ≤ maxFuel` and `hull ≤ maxHull`; every operation except a tick taken
while flying also preserves the lower bounds (so docked play keeps
`0 ≤ fuel` and `0 ≤ hull`); the in-flight tick applies no lower clamp —
fuel drops by exactly one tick's burn and hull by at most 5, which can take
either below 0. -/
theorem C1_bounds (geo : ℕ → String → String → ℚ)
    (hgeo : ∀ t x y, 0 ≤ geo t x y) (w : World) (op : Op)
    (heff : 0 ≤ w.gs.ship.fuelEfficiency) (hb : Bounds w.gs) :
    UpperBounds (applyOp geo op w).1.gs ∧
    ((w.gs.isFlying = false ∨ ∀ o : TickOracle, op ≠ Op.tick o) →
      Bounds (applyOp geo op w).1.gs) ∧
    (w.gs.fuel - tickFuelBurn geo w.gs ≤ (applyOp geo op w).1.gs.fuel ∧
      w.gs.hull - 5 ≤ (applyOp geo op w).1.gs.hull) := by
  obtain ⟨hb1, hb2, hb3, hb4⟩ := hb
  have hmax : (0 : ℚ) ≤ w.gs.ship.maxFuel := le_trans hb1 hb2
  have hmaxh : (0 : ℚ) ≤ w.gs.ship.maxHull := le_trans hb3 hb4
  have hburn : 0 ≤ tickFuelBurn geo w.gs := tickFuelBurn_nonneg geo hgeo w.gs heff
  cases op with
  | tick o =>
    obtain ⟨hship, hres⟩ := tick_resources geo o w
    simp only [applyOp]
    refine ⟨?_, ?_, ?_⟩
    · rcases hres with ⟨hfu, hhu⟩ | ⟨hfu, hhu⟩
      · rw [UpperBounds, hship, hfu, hhu]
        exact ⟨hb2, hb4⟩
      · refine ⟨?_, ?_⟩
        · rw [hship, hfu]
          linarith
        · rw [hship]
          rcases hhu with hhu | hhu <;> rw [hhu] <;> linarith
    · rintro (hfly | hno)
      · have hid := tick_gs_not_flying geo o w hfly
        refine ⟨?_, ?_, ?_, ?_⟩ <;>
          simp only [applyOp, hid, maint_fuel, maint_hull, maint_ship,
            ugl_fuel, ugl_hull, ugl_ship] <;> assumption
      · exact absurd rfl (hno o)
    · rcases hres with ⟨hfu, hhu⟩ | ⟨hfu, hhu⟩
      · rw [hfu, hhu]
        exact ⟨by linarith, by linarith⟩
      · rw [hfu]
        refine ⟨le_refl _, ?_⟩
        rcases hhu with hhu | hhu <;> (rw [hhu]; try linarith)
  | travel tid =>
    obtain ⟨hfu, hhu, hship⟩ := travel_resources geo tid w
    simp only [applyOp]
    refine ⟨⟨by rw [hfu, hship]; exact hb2, by rw [hhu, hship]; exact hb4⟩,
      fun _ => ⟨by rw [hfu]; exact hb1, by rw [hfu, hship]; exact hb2,
        by rw [hhu]; exact hb3, by rw [hhu, hship]; exact hb4⟩,
      by rw [hfu]; linarith, by rw [hhu]; linarith⟩
  | accept c =>
    obtain ⟨hfu, hhu, hship⟩ := accept_resources c w
    simp only [applyOp]
    refine ⟨⟨by rw [hfu, hship]; exact hb2, by rw [hhu, hship]; exact hb4⟩,
      fun _ => ⟨by rw [hfu]; exact hb1, by rw [hfu, hship]; exact hb2,
        by rw [hhu]; exact hb3, by rw [hhu, hship]; exact hb4⟩,
      by rw [hfu]; linarith, by rw [hhu]; linarith⟩
  | refuel amt =>
    rcases refuel_fields amt w with hid | ⟨hamt, hfu, hhu, hship⟩
    · simp only [applyOp]
      rw [hid]
      exact ⟨⟨hb2, hb4⟩, fun _ => ⟨hb1, hb2, hb3, hb4⟩,
        by linarith, by linarith⟩
    · simp only [applyOp]
      have hfu1 : (confirmRefuel amt w).1.gs.fuel ≤ w.gs.ship.maxFuel := by
        rw [hfu]; exact min_le_left _ _
      have hfu0 : 0 ≤ (confirmRefuel amt w).1.gs.fuel := by
        rw [hfu]; exact le_min hmax (by linarith)
      have hfuge : w.gs.fuel ≤ (confirmRefuel amt w).1.gs.fuel := by
        rw [hfu]; exact le_min hb2 (by linarith)
      exact ⟨⟨by rw [hship]; exact hfu1, by rw [hhu, hship]; exact hb4⟩,
        fun _ => ⟨hfu0, by rw [hship]; exact hfu1, by rw [hhu]; exact hb3,
          by rw [hhu, hship]; exact hb4⟩,
        by linarith, by rw [hhu]; linarith⟩
  | repair =>
    obtain ⟨hfu, hship, hhu⟩ := repair_fields w
    simp only [applyOp]
    have hh1 : (handleRepair w).1.gs.hull ≤ w.gs.ship.maxHull := by
      rcases hhu with hhu | hhu
      · rw [hhu]; exact hb4
      · rw [hhu]
    have hh0 : 0 ≤ (handleRepair w).1.gs.hull := by
      rcases hhu with hhu | hhu <;> rw [hhu]
      · exact hb3
      · exact hmaxh
    have hhge : w.gs.hull - 5 ≤ (handleRepair w).1.gs.hull := by
      rcases hhu with hhu | hhu <;> rw [hhu] <;> linarith
    exact ⟨⟨by rw [hfu, hship]; exact hb2, by rw [hship]; exact hh1⟩,
      fun _ => ⟨by rw [hfu]; exact hb1, by rw [hfu, hship]; exact hb2, hh0,
        by rw [hship]; exact hh1⟩,
      by rw [hfu]; linarith, hhge⟩
  | wait =>
    exact ⟨⟨hb2, hb4⟩, fun _ => ⟨hb1, hb2, hb3, hb4⟩, by
      show w.gs.fuel - _ ≤ w.gs.fuel
      linarith, by
      show w.gs.hull - 5 ≤ w.gs.hull
      linarith⟩

/-- Witness for the amended C1 at a concrete input: a tick from the docked
initial world keeps the full bounds, and the upper bounds hold after it. -/
theorem C1_bounds_witness :
    Bounds w0.gs ∧ Bounds (applyOp geoC (Op.tick oC) w0).1.gs ∧
      UpperBounds (applyOp geoC (Op.tick oC) w0).1.gs := by
  have h := C1_bounds geoC (fun t x y => by norm_num [geoC]) w0 (Op.tick oC)
    (by decide) (by decide)
  exact ⟨by decide, h.2.1 (Or.inl (by decide)), h.1⟩

theorem flightInv_congr (w w' : World)
    (e1 : w'.gs.isFlying = w.gs.isFlying)
    (e2 : w'.gs.flightOriginId = w.gs.flightOriginId)
    (e3 : w'.gs.flightDestinationId = w.gs.flightDestinationId)
    (e4 : w'.gs.flightProgress = w.gs.flightProgress)
    (e5 : w'.gameOver = w.gameOver)
    (h : FlightInv w) : FlightInv w' := by
  obtain ⟨h1, h2, h3⟩ := h
  refine ⟨?_, ?_, ?_⟩
  · intro hf
    rw [e1] at hf
    rw [e2, e3, e4]
    exact h1 hf
  · intro hg hf
    rw [e5] at hg
    rw [e1] at hf
    rw [e2, e3, e4]
    exact h2 hg hf
  · intro hg
    rw [e5] at hg
    rw [e1]
    exact h3 hg

theorem flightInv_init (g0 g1 g2 : GenDraws) : FlightInv (initialWorld g0 g1 g2) := by
  refine ⟨?_, ?_, ?_⟩
  · intro h
    exact Bool.noConfusion h
  · intro _ _
    exact ⟨rfl, rfl, rfl⟩
  · intro h
    exact Bool.noConfusion h

theorem flightInv_tick (geo : ℕ → String → String → ℚ) (o : TickOracle)
    (w : World) (h : FlightInv w) : FlightInv (tickWorld geo o w) := by
  obtain ⟨h1, h2, h3⟩ := h
  have hgs := tickWorld_gs geo o w
  have hgo := tickWorld_gameOver geo o w
  set gs2 := (contractMaintenance w.pool (updateGameLoopStep w.gs) o.maint).2 with hgs2
  have e_fly : gs2.isFlying = w.gs.isFlying := by
    rw [hgs2, maint_isFlying, ugl_isFlying]
  have e_o : gs2.flightOriginId = w.gs.flightOriginId := by
    rw [hgs2, maint_origin, ugl_origin]
  have e_d : gs2.flightDestinationId = w.gs.flightDestinationId := by
    rw [hgs2, maint_dest, ugl_dest]
  have e_prog : gs2.flightProgress = w.gs.flightProgress := by
    rw [hgs2, maint_progress, ugl_progress]
  rcases flightStep_fields geo o.hazardDraw gs2 with hid |
    ⟨hb2', hbfly, hbf, hbo, hbd, hbp⟩ | ⟨hb2', hbfly, hbf, hbo, hbd, hbp⟩ |
    ⟨hb2', hbfly, hbprog, hbf, hbo, hbd, hbp⟩
  · -- the flight effect is the identity
    refine flightInv_congr w (tickWorld geo o w) ?_ ?_ ?_ ?_ ?_ ⟨h1, h2, h3⟩
    · rw [hgs, hid, e_fly]
    · rw [hgs, hid, e_o]
    · rw [hgs, hid, e_d]
    · rw [hgs, hid, e_prog]
    · rw [hgo, hid]
      simp
  · -- game over: flying stops, flight fields kept, gameOver set
    refine ⟨?_, ?_, ?_⟩
    · intro hf
      rw [hgs, hbf] at hf
      exact absurd hf (by decide)
    · intro hg _
      rw [hgo, hb2'] at hg
      simp at hg
    · intro _
      rw [hgs]
      exact hbf
  · -- arrival: flight fields cleared
    refine ⟨?_, ?_, ?_⟩
    · intro hf
      rw [hgs, hbf] at hf
      exact absurd hf (by decide)
    · intro _ _
      rw [hgs]
      exact ⟨hbo, hbd, hbp⟩
    · intro _
      rw [hgs]
      exact hbf
  · -- in-flight step: progress advances by 1/120
    have hwfly : w.gs.isFlying = true := by rw [← e_fly]; exact hbfly
    obtain ⟨a1, a2, k, hk, hkeq⟩ := h1 hwfly
    refine ⟨?_, ?_, ?_⟩
    · intro _
      rw [hgs, hbo, hbd, hbp, e_o, e_d, e_prog]
      refine ⟨a1, a2, k + 1, ?_, ?_⟩
      · have hlt : (k : ℚ) / 120 < 1 := by
          rw [← hkeq]
          rw [← e_prog]
          exact lt_of_not_le hbprog
        rw [div_lt_one (by norm_num)] at hlt
        have : k < 120 := by exact_mod_cast hlt
        omega
      · rw [hkeq]
        push_cast
        ring
    · intro _ hf
      rw [hgs, hbf] at hf
      exact absurd hf (by decide)
    · intro hg
      rw [hgo, hb2'] at hg
      simp at hg
      exact absurd (h3 hg) (by rw [hwfly]; decide)

theorem flightInv_travel (geo : ℕ → String → String → ℚ) (tid : String)
    (w : World) (hg : w.gameOver = false) (h : FlightInv w) :
    FlightInv (startTravel geo tid w).1 := by
  unfold startTravel
  dsimp only
  rcases hfind1 : LOCATIONS.find? (fun l => l.id == w.gs.currentLocationId)
    with _ | origin
  · rw [hfind1]
    exact h
  · rw [hfind1]
    rcases hfind2 : LOCATIONS.find? (fun l => l.id == tid) with _ | dest
    · rw [hfind2]
      exact h
    · rw [hfind2]
      dsimp only
      split
      · exact flightInv_congr w _ rfl rfl rfl rfl rfl h
      · refine ⟨?_, ?_, ?_⟩
        · intro _
          refine ⟨by simp, by simp, 0, by norm_num, by norm_num⟩
        · intro _ hf
          exact Bool.noConfusion hf
        · intro hgo
          rw [hg] at hgo
          exact Bool.noConfusion hgo

theorem flightInv_accept (c : Contract) (w : World) (h : FlightInv w) :
    FlightInv (handleAcceptContract c w).1 := by
  refine flightInv_congr w _ ?_ ?_ ?_ ?_ ?_ h <;>
    · unfold handleAcceptContract
      split <;> rfl

theorem flightInv_refuel (amt : ℚ) (w : World) (h : FlightInv w) :
    FlightInv (confirmRefuel amt w).1 := by
  rcases refuel_fields amt w with hid | ⟨_, _, _, _⟩
  · rw [hid]
    exact h
  · refine flightInv_congr w _ ?_ ?_ ?_ ?_ ?_ h <;>
      · unfold confirmRefuel
        dsimp only
        repeat' split
        all_goals rfl

theorem flightInv_repair (w : World) (h : FlightInv w) :
    FlightInv (handleRepair w).1 := by
  refine flightInv_congr w _ ?_ ?_ ?_ ?_ ?_ h <;>
    · unfold handleRepair
      dsimp only
      repeat' split
      all_goals rfl

theorem flightInv_wait (w : World) (h : FlightInv w) :
    FlightInv (handleWait w).1 :=
  flightInv_congr w _ rfl rfl rfl rfl rfl h

/-- Every reachable world satisfies the flight-field invariant. -/
theorem reachable_flightInv (geo : ℕ → String → String → ℚ) (w : World)
    (h : Reachable geo w) : FlightInv w := by
  induction h with
  | init g0 g1 g2 => exact flightInv_init g0 g1 g2
  | tick o ho hw ih => exact flightInv_tick geo o _ ih
  | travel tid hg hf hw ih => exact flightInv_travel geo tid _ hg ih
  | accept c hg hf hc hw ih => exact flightInv_accept c _ ih
  | refuel amt hg hf hw ih => exact flightInv_refuel amt _ ih
  | repair hg hf hw ih => exact flightInv_repair _ ih
  | wait hg hf hw ih => exact flightInv_wait _ ih

/-- Reachability is preserved by iterating a fixed valid tick. -/
theorem reachable_iter (geo : ℕ → String → String → ℚ) (o : TickOracle)
    (ho : ValidOracle o) (n : ℕ) :
    ∀ w : World, Reachable geo w → Reachable geo ((tickWorld geo o)^[n] w) := by
  induction n with
  | zero =>
    intro w hw
    simpa using hw
  | succ k ih =>
    intro w hw
    rw [Function.iterate_succ_apply]
    exact ih _ (Reachable.tick o ho hw)

/-- C3 counterexample: `wCrash` is reachable (start a flight and take 21
valid ticks, the hazard firing every tick, so the 21st tick is the game-over
transition), it is not flying, and yet its flight origin is still set and
its flight progress is 1/6 rather than 0. -/
theorem C3_counterexample :
    Reachable geoC wCrash ∧ wCrash.gs.isFlying = false ∧
      wCrash.gs.flightOriginId ≠ none ∧ wCrash.gs.flightProgress ≠ 0 := by
  refine ⟨?_, by decide, by decide, by decide⟩
  have h0 : Reachable geoC w0 := Reachable.init gC gC gC
  have h1 : Reachable geoC w1 :=
    Reachable.travel "moon-glimmer" (by decide) (by decide) h0
  exact reachable_iter geoC oC (by decide) 21 w1 h1

/-- C3 amended: in every reachable world, flying implies origin and
destination set and progress in [0,1]; a non-game-over docked world has the
flight fields cleared and progress 0; and after game over the ship is not
flying (but, per the counterexample, its flight fields need not be
cleared). -/
theorem C3_flight_invariant (geo : ℕ → String → String → ℚ) (w : World)
    (h : Reachable geo w) :
    (w.gs.isFlying = true →
      w.gs.flightOriginId ≠ none ∧ w.gs.flightDestinationId ≠ none ∧
        0 ≤ w.gs.flightProgress ∧ w.gs.flightProgress ≤ 1) ∧
    (w.gameOver = false → w.gs.isFlying = false →
      w.gs.flightOriginId = none ∧ w.gs.flightDestinationId = none ∧
        w.gs.flightProgress = 0) ∧
    (w.gameOver = true → w.gs.isFlying = false) := by
  obtain ⟨h1, h2, h3⟩ := reachable_flightInv geo w h
  refine ⟨?_, h2, h3⟩
  intro hf
  obtain ⟨a1, a2, k, hk, hkeq⟩ := h1 hf
  refine ⟨a1, a2, ?_, ?_⟩
  · rw [hkeq]
    positivity
  · rw [hkeq, div_le_one (by norm_num)]
    exact_mod_cast hk

/-- Witness for the amended C3: the freshly mounted initial world is
reachable, docked, not game over, and has cleared flight fields. -/
theorem C3_flight_invariant_witness :
    w0.gameOver = false ∧ w0.gs.isFlying = false ∧
      w0.gs.flightOriginId = none ∧ w0.gs.flightProgress = 0 := by
  have h := (C3_flight_invariant geoC w0 (Reachable.init gC gC gC)).2.1
    (by decide) (by decide)
  exact ⟨by decide, by decide, h.1, h.2.2⟩

/-- C6 failing input, evaluated: the offer `cExpired` has `expiresAt = 5`,
below the tick counter 11 of the maintenance pass, yet it is still in the
offer pool after the tick, because the pass's replenishment spawn made the
filtered pool's length match the old pool's length and the source only
commits the new pool when the lengths differ. -/
theorem C6_expired_offer_survives :
    cExpired ∈ wStale.pool ∧
    cExpired.expiresAt ≤ (updateGameLoopStep wStale.gs).gameTime ∧
    ValidOracle oSpawn ∧
    cExpired ∈ (tickWorld geoC oSpawn wStale).pool := by decide

end LunarRunner
